import Mathlib
/-!
Verification development for the agenticframework workflow-graph engine.

The Python source (backend/agents/common/graphs.py, graph_states.py) is
shallowly embedded below: Python runtime values become the inductive
`Value`, LangGraph TypedDict states become total maps from a `Field` enum
to `Option Value` (absent vs present), node bodies and routing functions
are translated one-for-one from graphs.py, and the LangGraph execution
loop (execute node, merge delta, route, repeat until terminal) is modelled
from the specification since the library itself is an external dependency.
Fallible Python operations (KeyError on indexing, AttributeError on
calling .get of a non-dict, TypeError on comparing a non-int) are modelled
with Option, `none` meaning the run aborts with an uncaught exception.
-/
namespace Agentic

/-- Python runtime values as they flow through the LangGraph states:
None, bool, int, str, list, dict (association list with string keys). -/
inductive Value : Type
  | vnone : Value
  | vbool : Bool → Value
  | vint : Int → Value
  | vstr : String → Value
  | vlist : List Value → Value
  | vdict : List (String × Value) → Value

/-- Python truthiness of a value (bool(v)). -/
def truthy : Value → Bool
  | Value.vnone => false
  | Value.vbool b => b
  | Value.vint n => n != 0
  | Value.vstr s => s != ""
  | Value.vlist l => !l.isEmpty
  | Value.vdict d => !d.isEmpty

/-- Python truthiness of dict.get-style lookup results: an absent key
behaves like None (falsy). -/
def truthyO : Option Value → Bool
  | none => false
  | some v => truthy v

/-- Lookup in a Python dict: d.get(k) without default (None if absent is
represented by the Option). -/
def dictGet : List (String × Value) → String → Option Value
  | [], _ => none
  | (k1, v) :: rest, k => if k = k1 then some v else dictGet rest k

/-- Lookup with a default: d.get(k, dflt). -/
def dictGetD (d : List (String × Value)) (k : String) (dflt : Value) : Value :=
  (dictGet d k).getD dflt

/-- Python len(v) for the sized values; none models the TypeError raised
by len() of a non-sized value. -/
def pyLen : Value → Option Nat
  | Value.vstr s => some s.length
  | Value.vlist l => some l.length
  | Value.vdict d => some d.length
  | _ => none

/-- Python int coercion as used in arithmetic and comparisons:
ints are themselves, bools are 0 or 1, everything else raises (none). -/
def pyToInt : Value → Option Int
  | Value.vint n => some n
  | Value.vbool b => some (if b then 1 else 0)
  | _ => none

/-- Does a lookup result equal a given Python string (x == "lit")?
Python equality with a string is only true for an equal string. -/
def isStr (o : Option Value) (t : String) : Bool :=
  match o with
  | some (Value.vstr s) => s == t
  | _ => false

/-- The field names appearing in the TypedDict states of
graph_states.py (WorkflowState, MigrationState, ChatState,
RemediationState, CodeGenState, PolicyState), one constructor per key. -/
inductive Field : Type
  | template | parameters | requested_by | workflow_id | tasks
  | completed_tasks | failed_tasks | current_task | status
  | jenkinsfile_content | project_name | use_llm
  | pipeline_data | parse_method | workflow_yaml | generation_method
  | cleaned_yaml | runner | migration_report | warnings | success
  | session_id | user_message | conversation_history
  | intent | action_needed | intent_parameters | intent_response
  | action_result | final_response | messages
  | pipeline_id | project_id | event_data | logs | analysis
  | playbook | execution_result | retry_count | outcome | notification_sent
  | service_name | language | database | api_type | environment
  | files | readme | artifact_key | repo_url | files_generated
  | content_type | content | context | policy_ids | policies
  | scan_results | violations | auto_fixable | suggested_fixes
  | approved | severity_summary | report | error
  deriving DecidableEq, Repr

/-- A LangGraph state: a mapping from field names to values, where
absence (none) is distinct from presence with None. -/
def StepState : Type := Field → Option Value

/-- Modelled from the spec: the LangGraph channel merge (section 4.1 of
the spec; the library implementing it is an external dependency, not in
the source tree). Every key present in the delta overwrites or adds its
value; keys absent from the delta are carried over unchanged. -/
def merge (s d : StepState) : StepState :=
  fun k => match d k with
    | some v => some v
    | none => s k

/-- state.get(k, dflt). -/
def sGetD (s : StepState) (k : Field) (dflt : Value) : Value :=
  (s k).getD dflt

/-- The empty delta (a node returning an empty dict). -/
def emptyDelta : StepState := fun _ => none

/-- Modelled from the spec: the LangGraph run loop (section 4.4 of the
spec; the library is an external dependency). At each step the current
node is executed, its delta merged, and the next node computed, until
the terminal marker is reached; the fuel argument only bounds the
recursion and is irrelevant once the terminal marker is reached within
it. Returns the list of executed nodes (the trace) and the final state;
none models an uncaught exception aborting the run or fuel exhaustion.
The per-graph step functions below package node execution, merge and
routing exactly as wired in graphs.py. -/
def runLoop {N : Type} [DecidableEq N] (term : N)
    (step : N → StepState → Option (N × StepState)) :
    Nat → N → StepState → Option (List N × StepState)
  | 0, _, _ => none
  | Nat.succ fuel, n, s =>
      if n = term then some ([], s)
      else
        (step n s).bind fun p =>
          (runLoop term step fuel p.1 p.2).bind fun q => some (n :: q.1, q.2)

/-! ## Routing functions, translated from graphs.py -/
/-- needs_fallback (graphs.py, Planner graph): fallback_plan when the
status is the sentinel "plan_failed" or tasks is falsy/absent. -/
def needs_fallback (s : StepState) : String :=
  if isStr (s Field.status) "plan_failed" || !truthyO (s Field.tasks) then
    "fallback_plan"
  else
    "store_workflow"

/-- route_after_parse (graphs.py, Migration graph). The final branch
indexes state and calls .get on pipeline_data, which raises (none) on a
truthy non-dict value. -/
def route_after_parse (s : StepState) : Option String :=
  if isStr (s Field.parse_method) "llm_failed" || !truthyO (s Field.pipeline_data) then
    some "parse_with_regex"
  else
    match s Field.pipeline_data with
    | some (Value.vdict d) =>
        some (if isStr (dictGet d "type") "unknown" then "parse_with_regex"
              else "generate_with_llm")
    | _ => none

/-- route_after_generate (graphs.py, Migration graph). -/
def route_after_generate (s : StepState) : String :=
  if isStr (s Field.generation_method) "llm_failed" || !truthyO (s Field.workflow_yaml) then
    "generate_with_template"
  else
    "cleanup_platform"

/-- needs_action (graphs.py, Chatbot graph). -/
def needs_action (s : StepState) : String :=
  if truthyO (s Field.action_needed) then "execute_action" else "compose_response"

/-- route_after_playbook (graphs.py, Remediation graph): execute only if
the playbook is truthy, its auto_fix_enabled is truthy and the analysis
risk_level equals "low". Calling .get on a truthy non-dict playbook or a
non-dict analysis raises (none). -/
def route_after_playbook (s : StepState) : Option String :=
  let pb := sGetD s Field.playbook Value.vnone
  let analysis := sGetD s Field.analysis (Value.vdict [])
  if truthy pb then
    match pb with
    | Value.vdict d =>
        if truthy (dictGetD d "auto_fix_enabled" Value.vnone) then
          match analysis with
          | Value.vdict a =>
              some (if isStr (dictGet a "risk_level") "low" then "execute_playbook"
                    else "store_and_notify")
          | _ => none
        else some "store_and_notify"
    | _ => none
  else some "store_and_notify"

/-- route_after_execute (graphs.py, Remediation graph): stop on success,
retry while the retry counter is below 3, otherwise report. A non-dict
execution_result or a non-number retry_count raises (none). -/
def route_after_execute (s : StepState) : Option String :=
  let result := sGetD s Field.execution_result (Value.vdict [])
  let rc := sGetD s Field.retry_count (Value.vint 0)
  match result with
  | Value.vdict d =>
      if isStr (dictGet d "outcome") "success" then
        some "store_and_notify"
      else
        match pyToInt rc with
        | some n => some (if n < 3 then "execute_playbook" else "store_and_notify")
        | none => none
  | _ => none

/-! ## Migration graph (build_migration_graph in graphs.py)

Node bodies call external collaborators on the agent object; those
collaborator results are the components of MigOracle. A collaborator
call inside a try block that raises is represented by an Option none
component (the node converts it to its failure sentinel); collaborator
calls outside any try block are modelled as total (an exception there
aborts the run, an unmodeled failure outside these claims). -/
/-- Collaborator results consumed by the Migration nodes:
parse_jenkinsfile_with_llm (none = raised), parse_jenkinsfile,
generate_workflow_with_llm (none = raised), the yaml dump of
convert_to_github_actions, _clean_platform_commands, and the
report timestamp. -/
structure MigOracle where
  parseLLM : Option (List (String × Value))
  regexPD : List (String × Value)
  genLLM : Option String
  tmplYaml : String
  cleanF : Value → Value → String
  timestamp : String

/-- The delta returned by parse_with_llm on success (graphs.py):
pipeline_data, parse_method "llm", runner from
pipeline_data.get("agent", "ubuntu-latest"). -/
def parseLLMSuccessDelta (pd : List (String × Value)) : StepState :=
  fun f => match f with
    | Field.pipeline_data => some (Value.vdict pd)
    | Field.parse_method => some (Value.vstr "llm")
    | Field.runner => some (dictGetD pd "agent" (Value.vstr "ubuntu-latest"))
    | _ => none

/-- The failure-sentinel delta returned by parse_with_llm when the
collaborator raises: empty pipeline_data and parse_method "llm_failed". -/
def parseLLMFailDelta : StepState :=
  fun f => match f with
    | Field.pipeline_data => some (Value.vdict [])
    | Field.parse_method => some (Value.vstr "llm_failed")
    | _ => none

/-- parse_with_llm (graphs.py): any exception inside the try (including
a missing jenkinsfile_content key) yields the failure sentinel. -/
def parse_with_llm (o : MigOracle) (s : StepState) : StepState :=
  match s Field.jenkinsfile_content, o.parseLLM with
  | some _, some pd => parseLLMSuccessDelta pd
  | _, _ => parseLLMFailDelta

/-- The delta returned by parse_with_regex: pipeline_data from the regex
parser, parse_method "regex", runner from the parsed data. -/
def parseRegexDelta (pd : List (String × Value)) : StepState :=
  fun f => match f with
    | Field.pipeline_data => some (Value.vdict pd)
    | Field.parse_method => some (Value.vstr "regex")
    | Field.runner => some (dictGetD pd "agent" (Value.vstr "ubuntu-latest"))
    | _ => none

/-- parse_with_regex (graphs.py): not wrapped in try, so a missing
jenkinsfile_content key aborts the run. -/
def parse_with_regex (o : MigOracle) (s : StepState) : Option StepState :=
  match s Field.jenkinsfile_content with
  | some _ => some (parseRegexDelta o.regexPD)
  | none => none

/-- The delta returned by generate_with_llm on success. -/
def genLLMSuccessDelta (y : String) : StepState :=
  fun f => match f with
    | Field.workflow_yaml => some (Value.vstr y)
    | Field.generation_method => some (Value.vstr "llm")
    | _ => none

/-- The failure-sentinel delta of generate_with_llm: empty workflow_yaml
and generation_method "llm_failed". -/
def genLLMFailDelta : StepState :=
  fun f => match f with
    | Field.workflow_yaml => some (Value.vstr "")
    | Field.generation_method => some (Value.vstr "llm_failed")
    | _ => none

/-- generate_with_llm (graphs.py): the try block covers the state
indexing and the collaborator call, so a missing key or a raised
generation both yield the failure sentinel. -/
def generate_with_llm (o : MigOracle) (s : StepState) : StepState :=
  match s Field.pipeline_data, s Field.project_name, o.genLLM with
  | some _, some _, some y => genLLMSuccessDelta y
  | _, _, _ => genLLMFailDelta

/-- The delta returned by generate_with_template: the yaml dump of the
template conversion and generation_method "template". -/
def genTemplateDelta (y : String) : StepState :=
  fun f => match f with
    | Field.workflow_yaml => some (Value.vstr y)
    | Field.generation_method => some (Value.vstr "template")
    | _ => none

/-- generate_with_template (graphs.py): unguarded state indexing of
pipeline_data and project_name. -/
def generate_with_template (o : MigOracle) (s : StepState) : Option StepState :=
  match s Field.pipeline_data, s Field.project_name with
  | some _, some _ => some (genTemplateDelta o.tmplYaml)
  | _, _ => none

/-- The delta returned by cleanup_platform: the cleaned yaml. -/
def cleanupDelta (c : String) : StepState :=
  fun f => match f with
    | Field.cleaned_yaml => some (Value.vstr c)
    | _ => none

/-- cleanup_platform (graphs.py): runner defaults to "ubuntu-latest",
workflow_yaml is indexed unguarded. -/
def cleanup_platform (o : MigOracle) (s : StepState) : Option StepState :=
  let runner := sGetD s Field.runner (Value.vstr "ubuntu-latest")
  match s Field.workflow_yaml with
  | some y => some (cleanupDelta (o.cleanF y runner))
  | none => none

/-- The delta returned by build_report: the report, the warnings and
success = True. -/
def buildReportDelta (report : Value) (warns : List Value) : StepState :=
  fun f => match f with
    | Field.migration_report => some report
    | Field.warnings => some (Value.vlist warns)
    | Field.success => some (Value.vbool true)
    | _ => none

/-- The entries of the report dict assembled by build_report from the
pipeline data, the recorded methods and the timestamp. -/
def migrationReportEntries (pd : List (String × Value)) (s : StepState)
    (nStages nEnv nTrig : Nat) (ts : String) : List (String × Value) :=
  [ ("source_type", Value.vstr "Jenkins"),
    ("target_type", Value.vstr "GitHub Actions"),
    ("pipeline_type", dictGetD pd "type" (Value.vstr "unknown")),
    ("stages_converted", Value.vint nStages),
    ("environment_variables", Value.vint nEnv),
    ("triggers_converted", Value.vint nTrig),
    ("parse_method", sGetD s Field.parse_method (Value.vstr "unknown")),
    ("generation_method", sGetD s Field.generation_method (Value.vstr "unknown")),
    ("timestamp", Value.vstr ts) ]

/-- The report dict assembled by build_report. -/
def migrationReport (pd : List (String × Value)) (s : StepState)
    (nStages nEnv nTrig : Nat) (ts : String) : Value :=
  Value.vdict (migrationReportEntries pd s nStages nEnv nTrig ts)

/-- The warnings list assembled by build_report. -/
def migrationWarnings (pd : List (String × Value)) : List Value :=
  (if !truthyO (dictGet pd "triggers") then
    [Value.vstr "No triggers found in Jenkinsfile. Default push trigger added."]
   else []) ++
  (if isStr (dictGet pd "type") "scripted" then
    [Value.vstr "Scripted pipeline detected. Manual review recommended for complex logic."]
   else [])

/-- build_report (graphs.py): indexes pipeline_data unguarded and calls
.get and len on its parts; a non-dict pipeline_data or a non-sized
stages/environment/triggers value raises (none). -/
def build_report (o : MigOracle) (s : StepState) : Option StepState :=
  match s Field.pipeline_data with
  | some (Value.vdict pd) =>
      (pyLen (dictGetD pd "stages" (Value.vlist []))).bind fun nStages =>
      (pyLen (dictGetD pd "environment" (Value.vdict []))).bind fun nEnv =>
      (pyLen (dictGetD pd "triggers" (Value.vlist []))).bind fun nTrig =>
      some (buildReportDelta (migrationReport pd s nStages nEnv nTrig o.timestamp)
              (migrationWarnings pd))
  | _ => none

/-- The nodes of the Migration graph plus the terminal marker. -/
inductive MigNode : Type
  | parse_with_llm | parse_with_regex | generate_with_llm
  | generate_with_template | cleanup_platform | build_report | terminal
  deriving DecidableEq, Repr

/-- Modelled from the spec: one transition of the LangGraph run loop for
the Migration wiring of build_migration_graph (execute the current node,
merge its delta, then follow the fixed edge or evaluate the conditional
edge mapping on the merged state). -/
def migStep (o : MigOracle) : MigNode → StepState → Option (MigNode × StepState)
  | MigNode.parse_with_llm, s =>
      let s1 := merge s (parse_with_llm o s)
      (route_after_parse s1).bind fun r =>
        if r = "parse_with_regex" then some (MigNode.parse_with_regex, s1)
        else if r = "generate_with_llm" then some (MigNode.generate_with_llm, s1)
        else none
  | MigNode.parse_with_regex, s =>
      (parse_with_regex o s).bind fun d => some (MigNode.generate_with_llm, merge s d)
  | MigNode.generate_with_llm, s =>
      let s1 := merge s (generate_with_llm o s)
      let r := route_after_generate s1
      if r = "generate_with_template" then some (MigNode.generate_with_template, s1)
      else if r = "cleanup_platform" then some (MigNode.cleanup_platform, s1)
      else none
  | MigNode.generate_with_template, s =>
      (generate_with_template o s).bind fun d => some (MigNode.cleanup_platform, merge s d)
  | MigNode.cleanup_platform, s =>
      (cleanup_platform o s).bind fun d => some (MigNode.build_report, merge s d)
  | MigNode.build_report, s =>
      (build_report o s).bind fun d => some (MigNode.terminal, merge s d)
  | MigNode.terminal, _ => none

/-- Modelled from the spec: the LangGraph run loop for the Migration
graph; returns the list of executed nodes and the final state when the
terminal marker is reached. -/
def migRun (o : MigOracle) : Nat → MigNode → StepState → Option (List MigNode × StepState) :=
  runLoop MigNode.terminal (migStep o)

/-- The initial Migration state, as built by the caller in
backend/agents/migration/main.py before graph.ainvoke. -/
def migInit (jenkinsfile projectName : String) (useLLM : Bool) : StepState :=
  fun f => match f with
    | Field.jenkinsfile_content => some (Value.vstr jenkinsfile)
    | Field.project_name => some (Value.vstr projectName)
    | Field.use_llm => some (Value.vbool useLLM)
    | _ => none

/-- The parse_method field holds a non-sentinel value. -/
def pmOK (s : StepState) : Prop :=
  s Field.parse_method = some (Value.vstr "llm") ∨
  s Field.parse_method = some (Value.vstr "regex")

/-- The generation_method field holds a non-sentinel value. -/
def gmOK (s : StepState) : Prop :=
  s Field.generation_method = some (Value.vstr "llm") ∨
  s Field.generation_method = some (Value.vstr "template")

/-- Invariant of the Migration run: once control passes the parse phase
the parse_method is non-sentinel, and once it passes the generate phase
the generation_method is non-sentinel as well. -/
def migInv : MigNode → StepState → Prop
  | MigNode.parse_with_llm, _ => True
  | MigNode.parse_with_regex, _ => True
  | MigNode.generate_with_llm, s => pmOK s
  | MigNode.generate_with_template, s => pmOK s
  | MigNode.cleanup_platform, s => pmOK s ∧ gmOK s
  | MigNode.build_report, s => pmOK s ∧ gmOK s
  | MigNode.terminal, s => pmOK s ∧ gmOK s

/-- A state in which the primary parse node has returned a non-empty
pipeline_data with parse_method "llm", but whose pipeline type is the
string "unknown". -/
def unknownTypeState : StepState :=
  fun f => match f with
    | Field.pipeline_data => some (Value.vdict [("type", Value.vstr "unknown")])
    | Field.parse_method => some (Value.vstr "llm")
    | _ => none

/-! ## Chatbot graph (build_chatbot_graph in graphs.py) -/
/-- Collaborator results consumed by the Chatbot nodes: the intent
analysis dict returned by agent.analyze_intent, the result of
agent.execute_action, and agent._format_action_response. -/
structure ChatOracle where
  analysis : List (String × Value)
  actionResult : Value
  formatF : Value → Value → Value → String

/-- The delta returned by analyze_intent: intent, action_needed,
intent_parameters and intent_response, each with the default used in
graphs.py when the analysis dict lacks the key. -/
def analyzeIntentDelta (a : List (String × Value)) : StepState :=
  fun f => match f with
    | Field.intent => some (dictGetD a "intent" (Value.vstr "general"))
    | Field.action_needed => some (dictGetD a "action_needed" (Value.vbool false))
    | Field.intent_parameters => some (dictGetD a "parameters" (Value.vdict []))
    | Field.intent_response =>
        some (dictGetD a "response" (Value.vstr "I\x27m here to help with your DevOps tasks!"))
    | _ => none

/-- analyze_intent (graphs.py): unguarded indexing of user_message and
conversation_history. -/
def analyze_intent (o : ChatOracle) (s : StepState) : Option StepState :=
  match s Field.user_message, s Field.conversation_history with
  | some _, some _ => some (analyzeIntentDelta o.analysis)
  | _, _ => none

/-- The delta returned by execute_action. -/
def actionResultDelta (v : Value) : StepState :=
  fun f => match f with
    | Field.action_result => some v
    | _ => none

/-- execute_action (graphs.py): unguarded indexing of intent;
intent_parameters is read with a default. -/
def execute_action (o : ChatOracle) (s : StepState) : Option StepState :=
  match s Field.intent with
  | some _ => some (actionResultDelta o.actionResult)
  | none => none

/-- The delta returned by compose_response. -/
def finalResponseDelta (v : Value) : StepState :=
  fun f => match f with
    | Field.final_response => some v
    | _ => none

/-- compose_response (graphs.py): if the action result is truthy the
response is reformatted (indexing intent unguarded), otherwise the
intent_response (default "") is returned as is. -/
def compose_response (o : ChatOracle) (s : StepState) : Option StepState :=
  let response := sGetD s Field.intent_response (Value.vstr "")
  let ar := sGetD s Field.action_result Value.vnone
  if truthy ar then
    match s Field.intent with
    | some iv => some (finalResponseDelta (Value.vstr (o.formatF response iv ar)))
    | none => none
  else
    some (finalResponseDelta response)

/-- The nodes of the Chatbot graph plus the terminal marker. -/
inductive ChatNode : Type
  | analyze_intent | execute_action | compose_response | terminal
  deriving DecidableEq, Repr

/-- Modelled from the spec: one transition of the LangGraph run loop for
the Chatbot wiring of build_chatbot_graph. -/
def chatStep (o : ChatOracle) : ChatNode → StepState → Option (ChatNode × StepState)
  | ChatNode.analyze_intent, s =>
      (analyze_intent o s).bind fun d =>
        let s1 := merge s d
        let r := needs_action s1
        if r = "execute_action" then some (ChatNode.execute_action, s1)
        else if r = "compose_response" then some (ChatNode.compose_response, s1)
        else none
  | ChatNode.execute_action, s =>
      (execute_action o s).bind fun d => some (ChatNode.compose_response, merge s d)
  | ChatNode.compose_response, s =>
      (compose_response o s).bind fun d => some (ChatNode.terminal, merge s d)
  | ChatNode.terminal, _ => none

/-- Modelled from the spec: the LangGraph run loop for the Chatbot graph. -/
def chatRun (o : ChatOracle) : Nat → ChatNode → StepState → Option (List ChatNode × StepState) :=
  runLoop ChatNode.terminal (chatStep o)

/-- The initial Chatbot state, as built by the caller in
backend/agents/chatbot/main.py before graph.ainvoke. -/
def chatInit (sid m : String) (hist : Value) : StepState :=
  fun f => match f with
    | Field.session_id => some (Value.vstr sid)
    | Field.user_message => some (Value.vstr m)
    | Field.conversation_history => some hist
    | _ => none

/-! ## Remediation graph (build_remediation_graph in graphs.py) -/
/-- Collaborator results consumed by the Remediation nodes:
_fetch_pipeline_logs, _analyze_failure, _find_playbook (None or a
playbook dict, per its Optional return type), and _execute_playbook as a
function of the retry counter value read at each attempt. -/
structure RemOracle where
  logs : String
  analysis : List (String × Value)
  playbook : Option (List (String × Value))
  execResult : Int → List (String × Value)

/-- The delta returned by fetch_logs. -/
def fetchLogsDelta (l : String) : StepState :=
  fun f => match f with
    | Field.logs => some (Value.vstr l)
    | _ => none

/-- The delta returned by analyze_failure. -/
def analysisDelta (a : List (String × Value)) : StepState :=
  fun f => match f with
    | Field.analysis => some (Value.vdict a)
    | _ => none

/-- The delta returned by find_playbook: the playbook dict, or None when
no playbook matched. -/
def playbookDelta (pb : Option (List (String × Value))) : StepState :=
  fun f => match f with
    | Field.playbook =>
        some (match pb with
          | some d => Value.vdict d
          | none => Value.vnone)
    | _ => none

/-- The delta returned by execute_playbook when the counter read was n:
the execution result and retry_count = n + 1. -/
def execDelta (r : List (String × Value)) (n : Int) : StepState :=
  fun f => match f with
    | Field.execution_result => some (Value.vdict r)
    | Field.retry_count => some (Value.vint (n + 1))
    | _ => none

/-- The delta returned by store_and_notify. -/
def notifyDelta (outc : Value) : StepState :=
  fun f => match f with
    | Field.outcome => some outc
    | Field.notification_sent => some (Value.vbool true)
    | _ => none

/-- fetch_logs (graphs.py): unguarded indexing of pipeline_id and
project_id. -/
def fetch_logs (o : RemOracle) (s : StepState) : Option StepState :=
  match s Field.pipeline_id, s Field.project_id with
  | some _, some _ => some (fetchLogsDelta o.logs)
  | _, _ => none

/-- analyze_failure (graphs.py): unguarded indexing of logs; event_data
is read with a default. -/
def analyze_failure (o : RemOracle) (s : StepState) : Option StepState :=
  match s Field.logs with
  | some _ => some (analysisDelta o.analysis)
  | none => none

/-- find_playbook (graphs.py): indexes analysis and its category key
unguarded (a missing key or a non-dict analysis raises). -/
def find_playbook (o : RemOracle) (s : StepState) : Option StepState :=
  match s Field.analysis with
  | some (Value.vdict a) =>
      match dictGet a "category" with
      | some _ => some (playbookDelta o.playbook)
      | none => none
  | _ => none

/-- execute_playbook (graphs.py): indexes playbook, analysis,
pipeline_id and project_id unguarded; reads retry_count with default 0
and returns it incremented (a non-number counter raises on the
increment). -/
def execute_playbook (o : RemOracle) (s : StepState) : Option StepState :=
  match s Field.playbook, s Field.analysis, s Field.pipeline_id, s Field.project_id with
  | some _, some _, some _, some _ =>
      match pyToInt (sGetD s Field.retry_count (Value.vint 0)) with
      | some n => some (execDelta (o.execResult n) n)
      | none => none
  | _, _, _, _ => none

/-- store_and_notify (graphs.py): execution_result defaults to the dict
with outcome "manual_intervention_required" when absent; its outcome key
is read with the same default; pipeline_id and project_id are indexed
unguarded for _store_action. -/
def store_and_notify (_o : RemOracle) (s : StepState) : Option StepState :=
  match s Field.pipeline_id, s Field.project_id with
  | some _, some _ =>
      match sGetD s Field.execution_result
          (Value.vdict [("outcome", Value.vstr "manual_intervention_required")]) with
      | Value.vdict d =>
          some (notifyDelta (dictGetD d "outcome" (Value.vstr "manual_intervention_required")))
      | _ => none
  | _, _ => none

/-- The nodes of the Remediation graph plus the terminal marker. -/
inductive RemNode : Type
  | fetch_logs | analyze_failure | find_playbook | execute_playbook
  | store_and_notify | terminal
  deriving DecidableEq, Repr

/-- Modelled from the spec: one transition of the LangGraph run loop for
the Remediation wiring of build_remediation_graph. -/
def remStep (o : RemOracle) : RemNode → StepState → Option (RemNode × StepState)
  | RemNode.fetch_logs, s =>
      (fetch_logs o s).bind fun d => some (RemNode.analyze_failure, merge s d)
  | RemNode.analyze_failure, s =>
      (analyze_failure o s).bind fun d => some (RemNode.find_playbook, merge s d)
  | RemNode.find_playbook, s =>
      (find_playbook o s).bind fun d =>
        let s1 := merge s d
        (route_after_playbook s1).bind fun r =>
          if r = "execute_playbook" then some (RemNode.execute_playbook, s1)
          else if r = "store_and_notify" then some (RemNode.store_and_notify, s1)
          else none
  | RemNode.execute_playbook, s =>
      (execute_playbook o s).bind fun d =>
        let s1 := merge s d
        (route_after_execute s1).bind fun r =>
          if r = "store_and_notify" then some (RemNode.store_and_notify, s1)
          else if r = "execute_playbook" then some (RemNode.execute_playbook, s1)
          else none
  | RemNode.store_and_notify, s =>
      (store_and_notify o s).bind fun d => some (RemNode.terminal, merge s d)
  | RemNode.terminal, _ => none

/-- Modelled from the spec: the LangGraph run loop for the Remediation
graph. -/
def remRun (o : RemOracle) : Nat → RemNode → StepState → Option (List RemNode × StepState) :=
  runLoop RemNode.terminal (remStep o)

/-- The initial Remediation state, as built by the caller in
backend/agents/remediation/main.py before graph.ainvoke (including
retry_count = 0). -/
def remInit (pid pj ed : Value) : StepState :=
  fun f => match f with
    | Field.pipeline_id => some pid
    | Field.project_id => some pj
    | Field.event_data => some ed
    | Field.retry_count => some (Value.vint 0)
    | _ => none

/-! ## Policy graph -/
/-- The nodes of the Policy graph plus the terminal marker. -/
inductive PolicyNode : Type
  | load_policies | scan_content | evaluate_violations | suggest_fixes
  | build_report | terminal
  deriving DecidableEq, Repr

/-- The shape of a workflow graph whose edges are all fixed (an entry
node and one successor per node — no conditional branching). -/
structure LinearGraphShape (N : Type) where
  entry : N
  next : N → N

/-- Modelled from the spec: build_policy_graph is imported by
backend/agents/policy/main.py from common.graphs and called exactly once
in the PolicyAgent constructor, but its definition is not present in the
source tree; section 4.5 of the spec declares the Policy shape as the
linear chain load_policies → scan_content → evaluate_violations →
suggest_fixes → build_report → terminal with entry load_policies and no
branching. -/
def policyGraph : LinearGraphShape PolicyNode :=
  { entry := PolicyNode.load_policies,
    next := fun n => match n with
      | PolicyNode.load_policies => PolicyNode.scan_content
      | PolicyNode.scan_content => PolicyNode.evaluate_violations
      | PolicyNode.evaluate_violations => PolicyNode.suggest_fixes
      | PolicyNode.suggest_fixes => PolicyNode.build_report
      | PolicyNode.build_report => PolicyNode.terminal
      | PolicyNode.terminal => PolicyNode.terminal }

/-! ## Routing totality and the playbook gate -/
/-- The values a dict-typed state field may hold on the reachable states
of its graph: absent, or a dict (as declared in graph_states.py and as
produced by every node delta). -/
def dictFieldTyped (ov : Option Value) : Prop :=
  ov = none ∨ ∃ d, ov = some (Value.vdict d)

/-- The values the playbook field may hold on reachable Remediation
states: absent, None (no playbook matched), or a playbook dict
(Optional dict in graph_states.py; _find_playbook returns Optional). -/
def playbookFieldTyped (ov : Option Value) : Prop :=
  ov = none ∨ ov = some Value.vnone ∨ ∃ d, ov = some (Value.vdict d)

/-- The values the retry_count field may hold on reachable Remediation
states: absent or a number (Python bools are ints). -/
def counterFieldTyped (ov : Option Value) : Prop :=
  ov = none ∨ (∃ n, ov = some (Value.vint n)) ∨ (∃ b, ov = some (Value.vbool b))

/-- A concrete eligible Remediation state for the gating witness. -/
def gateWitnessState : StepState :=
  fun f => match f with
    | Field.playbook => some (Value.vdict [("auto_fix_enabled", Value.vbool true)])
    | Field.analysis => some (Value.vdict [("risk_level", Value.vstr "low")])
    | _ => none

/-- The well-typedness of the four Remediation fields consumed by its
routing functions, as maintained by every node delta. -/
def remTyped (s : StepState) : Prop :=
  playbookFieldTyped (s Field.playbook) ∧ dictFieldTyped (s Field.analysis) ∧
  dictFieldTyped (s Field.execution_result) ∧ counterFieldTyped (s Field.retry_count)

/-! ## Theorems -/

@[simp] theorem merge_apply (s d : StepState) (k : Field) :
    merge s d k = match d k with | some v => some v | none => s k := rfl

theorem merge_apply_of_some (s d : StepState) (k : Field) (v : Value)
    (h : d k = some v) : merge s d k = some v := by
  simp [merge, h]

theorem merge_apply_of_none (s d : StepState) (k : Field)
    (h : d k = none) : merge s d k = s k := by
  simp [merge, h]

theorem runLoop_term {N : Type} [DecidableEq N] (term : N)
    (step : N → StepState → Option (N × StepState)) (fuel : Nat) (s : StepState) :
    runLoop term step (fuel + 1) term s = some ([], s) := by
  simp [runLoop]

/-- An invariant preserved by every step of a run loop holds, at the
terminal marker, of the final state of every completed run. -/
theorem runLoop_inv {N : Type} [DecidableEq N] (term : N)
    (step : N → StepState → Option (N × StepState)) (P : N → StepState → Prop)
    (hstep : ∀ n s n' s', P n s → step n s = some (n', s') → P n' s') :
    ∀ (fuel : Nat) (n : N) (s : StepState) (tr : List N) (fin : StepState),
      P n s → runLoop term step fuel n s = some (tr, fin) → P term fin := by
  intro fuel
  induction fuel with
  | zero => intro n s tr fin _ hrun; simp [runLoop] at hrun
  | succ fuel ih =>
      intro n s tr fin hP hrun
      by_cases hn : n = term
      · subst hn
        simp [runLoop] at hrun
        rcases hrun with ⟨_, rfl⟩
        exact hP
      · rcases hstep0 : step n s with _ | p
        · simp [runLoop, hn, hstep0] at hrun
        · rcases hrest : runLoop term step fuel p.1 p.2 with _ | q
          · simp [runLoop, hn, hstep0, hrest] at hrun
          · simp [runLoop, hn, hstep0, hrest] at hrun
            rcases hrun with ⟨h1, h2⟩
            subst h2
            exact ih p.1 p.2 q.1 q.2 (hstep n s p.1 p.2 hP hstep0) hrest

theorem runLoop_build {N : Type} [DecidableEq N] (term : N)
    (step : N → StepState → Option (N × StepState)) (fuel : Nat)
    {n n' : N} {s s' : StepState} {tr : List N} {fin : StepState}
    (hn : (n = term) = False)
    (hstep : step n s = some (n', s'))
    (hrest : runLoop term step fuel n' s' = some (tr, fin)) :
    runLoop term step (fuel + 1) n s = some (n :: tr, fin) := by
  simp [runLoop, hn, hstep, hrest]

theorem isStr_eval (s t : String) : isStr (some (Value.vstr s)) t = (s == t) := rfl

theorem truthy_vnone : truthy Value.vnone = false := rfl

theorem truthy_vbool (b : Bool) : truthy (Value.vbool b) = b := rfl

theorem truthy_vint (n : Int) : truthy (Value.vint n) = (n != 0) := rfl

theorem truthy_vstr (s : String) : truthy (Value.vstr s) = (s != "") := rfl

theorem truthy_vlist (l : List Value) : truthy (Value.vlist l) = !l.isEmpty := rfl

theorem truthy_vdict (d : List (String × Value)) : truthy (Value.vdict d) = !d.isEmpty := rfl

theorem isStr_iff (o : Option Value) (t : String) :
    isStr o t = true ↔ o = some (Value.vstr t) := by
  cases o with
  | none => simp [isStr]
  | some v =>
      cases v <;> simp [isStr]

theorem pmOK_merge (s d : StepState) (hd : d Field.parse_method = none)
    (h : pmOK s) : pmOK (merge s d) := by
  rcases h with h | h
  · exact Or.inl (by simp [merge, hd, h])
  · exact Or.inr (by simp [merge, hd, h])

theorem gmOK_merge (s d : StepState) (hd : d Field.generation_method = none)
    (h : gmOK s) : gmOK (merge s d) := by
  rcases h with h | h
  · exact Or.inl (by simp [merge, hd, h])
  · exact Or.inr (by simp [merge, hd, h])

theorem route_after_generate_total (s : StepState) :
    route_after_generate s = "generate_with_template" ∨
    route_after_generate s = "cleanup_platform" := by
  unfold route_after_generate
  split
  · exact Or.inl rfl
  · exact Or.inr rfl

theorem build_report_delta_shape (o : MigOracle) (s : StepState) (d : StepState)
    (h : build_report o s = some d) : ∃ r w, d = buildReportDelta r w := by
  unfold build_report at h
  split at h
  · simp only [Option.bind_eq_some] at h
    obtain ⟨nS, _, nE, _, nT, _, h⟩ := h
    exact ⟨_, _, (Option.some_inj.mp h).symm⟩
  · exact absurd h (by simp)

/-- Every Migration step preserves the invariant. -/
theorem migStep_inv (o : MigOracle) :
    ∀ n s n' s', migInv n s → migStep o n s = some (n', s') → migInv n' s' := by
  intro n s n' s' hI h
  cases n with
  | parse_with_llm =>
      rcases hm : s Field.jenkinsfile_content with _ | jv <;>
        rcases hpl : o.parseLLM with _ | pd <;>
      first
        | -- sentinel delta: the route is parse_with_regex, computed outright
          (simp [migStep, parse_with_llm, hm, hpl, route_after_parse, merge,
             parseLLMFailDelta, isStr_eval, truthyO, truthy] at h
           rcases h with ⟨rfl, rfl⟩
           trivial)
        | -- success delta: whichever way the route goes, parse_method is "llm"
          (have hd : parse_with_llm o s = parseLLMSuccessDelta pd := by
             simp [parse_with_llm, hm, hpl]
           simp only [migStep, hd] at h
           rcases hr : route_after_parse (merge s (parseLLMSuccessDelta pd)) with _ | r <;>
             simp only [hr, Option.bind_none, Option.bind_some] at h
           · exact absurd h (by simp)
           · by_cases h1 : r = "parse_with_regex"
             · subst h1
               simp at h
               rcases h with ⟨rfl, rfl⟩
               trivial
             · by_cases h2 : r = "generate_with_llm"
               · subst h2
                 simp [h1] at h
                 rcases h with ⟨rfl, rfl⟩
                 simp only [migInv, pmOK]
                 exact Or.inl (by simp [merge, parseLLMSuccessDelta])
               · simp [h1, h2] at h)
  | parse_with_regex =>
      rcases hm : s Field.jenkinsfile_content with _ | jv
      · simp [migStep, parse_with_regex, hm] at h
      · simp [migStep, parse_with_regex, hm] at h
        rcases h with ⟨rfl, rfl⟩
        simp only [migInv, pmOK]
        exact Or.inr (by simp [merge, parseRegexDelta])
  | generate_with_llm =>
      rcases hm1 : s Field.pipeline_data with _ | v1 <;>
        rcases hm2 : s Field.project_name with _ | v2 <;>
        rcases hm3 : o.genLLM with _ | y <;>
      first
        | -- sentinel delta: the route is generate_with_template, computed outright
          (have hd : generate_with_llm o s = genLLMFailDelta := by
             simp [generate_with_llm, hm1, hm2, hm3]
           simp [migStep, hd, route_after_generate, merge, genLLMFailDelta,
             isStr_eval, truthyO, truthy] at h
           rcases h with ⟨rfl, rfl⟩
           simp only [migInv]
           exact pmOK_merge s _ rfl hI)
        | -- success delta
          (have hd : generate_with_llm o s = genLLMSuccessDelta y := by
             simp [generate_with_llm, hm1, hm2, hm3]
           simp only [migStep, hd] at h
           rcases route_after_generate_total (merge s (genLLMSuccessDelta y)) with hr | hr <;>
             simp [hr] at h <;> rcases h with ⟨rfl, rfl⟩
           · simp only [migInv]
             exact pmOK_merge s _ rfl hI
           · simp only [migInv, gmOK]
             exact ⟨pmOK_merge s _ rfl hI,
               Or.inl (by simp [merge, genLLMSuccessDelta])⟩)
  | generate_with_template =>
      rcases hm1 : s Field.pipeline_data with _ | v1 <;>
        rcases hm2 : s Field.project_name with _ | v2 <;>
        simp [migStep, generate_with_template, hm1, hm2] at h
      rcases h with ⟨rfl, rfl⟩
      simp only [migInv, gmOK]
      exact ⟨pmOK_merge s _ rfl hI, Or.inr (by simp [merge, genTemplateDelta])⟩
  | cleanup_platform =>
      rcases hm : s Field.workflow_yaml with _ | y
      · simp [migStep, cleanup_platform, hm] at h
      · simp [migStep, cleanup_platform, hm] at h
        rcases h with ⟨rfl, rfl⟩
        exact ⟨pmOK_merge s _ rfl hI.1, gmOK_merge s _ rfl hI.2⟩
  | build_report =>
      rcases hb : build_report o s with _ | d
      · simp [migStep, hb] at h
      · simp [migStep, hb] at h
        rcases h with ⟨rfl, rfl⟩
        obtain ⟨r, w, rfl⟩ := build_report_delta_shape o s d hb
        exact ⟨pmOK_merge s _ rfl hI.1, gmOK_merge s _ rfl hI.2⟩
  | terminal => simp [migStep] at h

/-- Helper: from the generate_with_llm node, in any state whose
pipeline_data is a dict with sized stages/environment/triggers and whose
project_name is present, the Migration run reaches the terminal marker
without revisiting the parse nodes, preserves parse_method, ends with
generation_method "llm" or "template" and success = True, and the built
report records the parse_method of the incoming state. -/
theorem migRun_from_generate (o : MigOracle) (k : Nat) (s : StepState)
    (pd : List (String × Value)) (nS nE nT : Nat)
    (hpd : s Field.pipeline_data = some (Value.vdict pd))
    (hpn : ∃ v, s Field.project_name = some v)
    (hS : pyLen (dictGetD pd "stages" (Value.vlist [])) = some nS)
    (hE : pyLen (dictGetD pd "environment" (Value.vdict [])) = some nE)
    (hT : pyLen (dictGetD pd "triggers" (Value.vlist [])) = some nT) :
    ∃ tr fin, migRun o (k + 5) MigNode.generate_with_llm s = some (tr, fin) ∧
      (tr = [MigNode.generate_with_llm, MigNode.cleanup_platform, MigNode.build_report] ∨
       tr = [MigNode.generate_with_llm, MigNode.generate_with_template,
             MigNode.cleanup_platform, MigNode.build_report]) ∧
      fin Field.parse_method = s Field.parse_method ∧
      (fin Field.generation_method = some (Value.vstr "llm") ∨
       fin Field.generation_method = some (Value.vstr "template")) ∧
      fin Field.success = some (Value.vbool true) ∧
      ∃ rep, fin Field.migration_report = some (Value.vdict rep) ∧
        dictGet rep "parse_method" = some (sGetD s Field.parse_method (Value.vstr "unknown")) := by
  obtain ⟨pn, hpn⟩ := hpn
  rcases hyg : o.genLLM with _ | y
  · -- generation raised: sentinel, then template fallback
    set s1 : StepState := merge s genLLMFailDelta with hs1
    set s2 : StepState := merge s1 (genTemplateDelta o.tmplYaml) with hs2
    set s3 : StepState := merge s2
      (cleanupDelta (o.cleanF (Value.vstr o.tmplYaml)
        (sGetD s Field.runner (Value.vstr "ubuntu-latest")))) with hs3
    set s4 : StepState := merge s3
      (buildReportDelta (migrationReport pd s3 nS nE nT o.timestamp)
        (migrationWarnings pd)) with hs4
    have e1 : migStep o MigNode.generate_with_llm s = some (MigNode.generate_with_template, s1) := by
      simp [hs1, migStep, generate_with_llm, hpd, hpn, hyg, merge, genLLMFailDelta,
        route_after_generate, isStr, truthyO, truthy]
    have e2 : migStep o MigNode.generate_with_template s1 = some (MigNode.cleanup_platform, s2) := by
      simp [hs1, hs2, migStep, generate_with_template, hpd, hpn, merge, genLLMFailDelta]
    have e3 : migStep o MigNode.cleanup_platform s2 = some (MigNode.build_report, s3) := by
      simp [hs1, hs2, hs3, migStep, cleanup_platform, merge, sGetD, genLLMFailDelta,
        genTemplateDelta, cleanupDelta]
    have e4 : migStep o MigNode.build_report s3 = some (MigNode.terminal, s4) := by
      simp [hs1, hs2, hs3, hs4, migStep, build_report, hpd, merge, genLLMFailDelta,
        genTemplateDelta, cleanupDelta, hS, hE, hT]
    have r0 : migRun o (k + 1) MigNode.terminal s4 = some ([], s4) := runLoop_term _ _ k s4
    have r1 : migRun o (k + 2) MigNode.build_report s3 = some ([MigNode.build_report], s4) :=
      runLoop_build _ _ (k + 1) (by simp) e4 r0
    have r2 : migRun o (k + 3) MigNode.cleanup_platform s2 =
        some ([MigNode.cleanup_platform, MigNode.build_report], s4) :=
      runLoop_build _ _ (k + 2) (by simp) e3 r1
    have r3 : migRun o (k + 4) MigNode.generate_with_template s1 =
        some ([MigNode.generate_with_template, MigNode.cleanup_platform, MigNode.build_report], s4) :=
      runLoop_build _ _ (k + 3) (by simp) e2 r2
    have r4 : migRun o (k + 5) MigNode.generate_with_llm s =
        some ([MigNode.generate_with_llm, MigNode.generate_with_template,
               MigNode.cleanup_platform, MigNode.build_report], s4) :=
      runLoop_build _ _ (k + 4) (by simp) e1 r3
    refine ⟨_, s4, r4, Or.inr rfl, ?_, Or.inr ?_, ?_,
      ⟨migrationReportEntries pd s3 nS nE nT o.timestamp, ?_, ?_⟩⟩ <;>
      simp [hs1, hs2, hs3, hs4, merge, sGetD, genLLMFailDelta, genTemplateDelta,
        cleanupDelta, buildReportDelta, migrationReport, migrationReportEntries, dictGet]
  · by_cases hy : y = ""
    · -- generation returned an empty string: falsy output, template fallback
      subst hy
      set s1 : StepState := merge s (genLLMSuccessDelta "") with hs1
      set s2 : StepState := merge s1 (genTemplateDelta o.tmplYaml) with hs2
      set s3 : StepState := merge s2
        (cleanupDelta (o.cleanF (Value.vstr o.tmplYaml)
          (sGetD s Field.runner (Value.vstr "ubuntu-latest")))) with hs3
      set s4 : StepState := merge s3
        (buildReportDelta (migrationReport pd s3 nS nE nT o.timestamp)
          (migrationWarnings pd)) with hs4
      have e1 : migStep o MigNode.generate_with_llm s =
          some (MigNode.generate_with_template, s1) := by
        simp [hs1, migStep, generate_with_llm, hpd, hpn, hyg, merge, genLLMSuccessDelta,
          route_after_generate, isStr, truthyO, truthy]
      have e2 : migStep o MigNode.generate_with_template s1 = some (MigNode.cleanup_platform, s2) := by
        simp [hs1, hs2, migStep, generate_with_template, hpd, hpn, merge, genLLMSuccessDelta]
      have e3 : migStep o MigNode.cleanup_platform s2 = some (MigNode.build_report, s3) := by
        simp [hs1, hs2, hs3, migStep, cleanup_platform, merge, sGetD, genLLMSuccessDelta,
          genTemplateDelta, cleanupDelta]
      have e4 : migStep o MigNode.build_report s3 = some (MigNode.terminal, s4) := by
        simp [hs1, hs2, hs3, hs4, migStep, build_report, hpd, merge, genLLMSuccessDelta,
          genTemplateDelta, cleanupDelta, hS, hE, hT]
      have r0 : migRun o (k + 1) MigNode.terminal s4 = some ([], s4) := runLoop_term _ _ k s4
      have r1 : migRun o (k + 2) MigNode.build_report s3 = some ([MigNode.build_report], s4) :=
        runLoop_build _ _ (k + 1) (by simp) e4 r0
      have r2 : migRun o (k + 3) MigNode.cleanup_platform s2 =
          some ([MigNode.cleanup_platform, MigNode.build_report], s4) :=
        runLoop_build _ _ (k + 2) (by simp) e3 r1
      have r3 : migRun o (k + 4) MigNode.generate_with_template s1 =
          some ([MigNode.generate_with_template, MigNode.cleanup_platform, MigNode.build_report], s4) :=
        runLoop_build _ _ (k + 3) (by simp) e2 r2
      have r4 : migRun o (k + 5) MigNode.generate_with_llm s =
          some ([MigNode.generate_with_llm, MigNode.generate_with_template,
                 MigNode.cleanup_platform, MigNode.build_report], s4) :=
        runLoop_build _ _ (k + 4) (by simp) e1 r3
      refine ⟨_, s4, r4, Or.inr rfl, ?_, Or.inr ?_, ?_,
        ⟨migrationReportEntries pd s3 nS nE nT o.timestamp, ?_, ?_⟩⟩ <;>
        simp [hs1, hs2, hs3, hs4, merge, sGetD, genLLMSuccessDelta, genTemplateDelta,
          cleanupDelta, buildReportDelta, migrationReport, migrationReportEntries, dictGet]
    · -- generation succeeded with a truthy yaml: straight to cleanup
      set s1 : StepState := merge s (genLLMSuccessDelta y) with hs1
      set s2 : StepState := merge s1
        (cleanupDelta (o.cleanF (Value.vstr y)
          (sGetD s Field.runner (Value.vstr "ubuntu-latest")))) with hs2
      set s3 : StepState := merge s2
        (buildReportDelta (migrationReport pd s2 nS nE nT o.timestamp)
          (migrationWarnings pd)) with hs3
      have e1 : migStep o MigNode.generate_with_llm s = some (MigNode.cleanup_platform, s1) := by
        simp [hs1, migStep, generate_with_llm, hpd, hpn, hyg, merge, genLLMSuccessDelta,
          route_after_generate, isStr, truthyO, truthy, hy]
      have e2 : migStep o MigNode.cleanup_platform s1 = some (MigNode.build_report, s2) := by
        simp [hs1, hs2, migStep, cleanup_platform, merge, sGetD, genLLMSuccessDelta, cleanupDelta]
      have e3 : migStep o MigNode.build_report s2 = some (MigNode.terminal, s3) := by
        simp [hs1, hs2, hs3, migStep, build_report, hpd, merge, genLLMSuccessDelta,
          cleanupDelta, hS, hE, hT]
      have r0 : migRun o (k + 2) MigNode.terminal s3 = some ([], s3) := runLoop_term _ _ (k + 1) s3
      have r1 : migRun o (k + 3) MigNode.build_report s2 = some ([MigNode.build_report], s3) :=
        runLoop_build _ _ (k + 2) (by simp) e3 r0
      have r2 : migRun o (k + 4) MigNode.cleanup_platform s1 =
          some ([MigNode.cleanup_platform, MigNode.build_report], s3) :=
        runLoop_build _ _ (k + 3) (by simp) e2 r1
      have r3 : migRun o (k + 5) MigNode.generate_with_llm s =
          some ([MigNode.generate_with_llm, MigNode.cleanup_platform, MigNode.build_report], s3) :=
        runLoop_build _ _ (k + 4) (by simp) e1 r2
      refine ⟨_, s3, r3, Or.inl rfl, ?_, Or.inl ?_, ?_,
        ⟨migrationReportEntries pd s2 nS nE nT o.timestamp, ?_, ?_⟩⟩ <;>
        simp [hs1, hs2, hs3, merge, sGetD, genLLMSuccessDelta,
          cleanupDelta, buildReportDelta, migrationReport, migrationReportEntries, dictGet]

/-! ## Claim theorems for the Migration graph -/
/-- C2: in the Migration graph, when the primary parse node returns its
failure sentinel (parse_method "llm_failed", empty pipeline_data) and
the primary generate node returns its failure sentinel
(generation_method "llm_failed", empty workflow_yaml), the run does not
abort: it routes through parse_with_regex and generate_with_template,
and the final state has parse_method = "regex", generation_method =
"template" and success = True. The hypotheses on pyLen reflect that the
regex parser returns sized stages/environment/triggers values (it always
initialises them to a list, a dict and a list). -/
theorem migration_full_fallback_chain (o : MigOracle) (j p : String) (u : Bool)
    (h1 : o.parseLLM = none) (h2 : o.genLLM = none)
    (nS nE nT : Nat)
    (hS : pyLen (dictGetD o.regexPD "stages" (Value.vlist [])) = some nS)
    (hE : pyLen (dictGetD o.regexPD "environment" (Value.vdict [])) = some nE)
    (hT : pyLen (dictGetD o.regexPD "triggers" (Value.vlist [])) = some nT) :
    ∃ fin, migRun o 8 MigNode.parse_with_llm (migInit j p u) =
      some ([MigNode.parse_with_llm, MigNode.parse_with_regex,
             MigNode.generate_with_llm, MigNode.generate_with_template,
             MigNode.cleanup_platform, MigNode.build_report], fin) ∧
      fin Field.parse_method = some (Value.vstr "regex") ∧
      fin Field.generation_method = some (Value.vstr "template") ∧
      fin Field.success = some (Value.vbool true) := by
  set s0 : StepState := migInit j p u with hs0
  set s1 : StepState := merge s0 parseLLMFailDelta with hs1
  set s2 : StepState := merge s1 (parseRegexDelta o.regexPD) with hs2
  set s3 : StepState := merge s2 genLLMFailDelta with hs3
  set s4 : StepState := merge s3 (genTemplateDelta o.tmplYaml) with hs4
  set s5 : StepState := merge s4
    (cleanupDelta (o.cleanF (Value.vstr o.tmplYaml)
      (dictGetD o.regexPD "agent" (Value.vstr "ubuntu-latest")))) with hs5
  set s6 : StepState := merge s5
    (buildReportDelta (migrationReport o.regexPD s5 nS nE nT o.timestamp)
      (migrationWarnings o.regexPD)) with hs6
  have e1 : migStep o MigNode.parse_with_llm s0 = some (MigNode.parse_with_regex, s1) := by
    simp [hs0, hs1, migStep, parse_with_llm, migInit, h1, route_after_parse, merge,
      parseLLMFailDelta, isStr, truthyO, truthy]
  have e2 : migStep o MigNode.parse_with_regex s1 = some (MigNode.generate_with_llm, s2) := by
    simp [hs0, hs1, hs2, migStep, parse_with_regex, migInit, merge, parseLLMFailDelta]
  have e3 : migStep o MigNode.generate_with_llm s2 = some (MigNode.generate_with_template, s3) := by
    simp [hs0, hs1, hs2, hs3, migStep, generate_with_llm, migInit, merge, h2,
      parseLLMFailDelta, parseRegexDelta, genLLMFailDelta, route_after_generate,
      isStr, truthyO, truthy]
  have e4 : migStep o MigNode.generate_with_template s3 = some (MigNode.cleanup_platform, s4) := by
    simp [hs0, hs1, hs2, hs3, hs4, migStep, generate_with_template, migInit, merge,
      parseLLMFailDelta, parseRegexDelta, genLLMFailDelta]
  have e5 : migStep o MigNode.cleanup_platform s4 = some (MigNode.build_report, s5) := by
    simp [hs0, hs1, hs2, hs3, hs4, hs5, migStep, cleanup_platform, migInit, merge, sGetD,
      parseLLMFailDelta, parseRegexDelta, genLLMFailDelta, genTemplateDelta, cleanupDelta]
  have e6 : migStep o MigNode.build_report s5 = some (MigNode.terminal, s6) := by
    simp [hs0, hs1, hs2, hs3, hs4, hs5, hs6, migStep, build_report, migInit, merge,
      parseLLMFailDelta, parseRegexDelta, genLLMFailDelta, genTemplateDelta, cleanupDelta,
      hS, hE, hT]
  have r0 : migRun o 2 MigNode.terminal s6 = some ([], s6) := runLoop_term _ _ 1 s6
  have r1 : migRun o 3 MigNode.build_report s5 = some ([MigNode.build_report], s6) :=
    runLoop_build _ _ 2 (by simp) e6 r0
  have r2 : migRun o 4 MigNode.cleanup_platform s4 =
      some ([MigNode.cleanup_platform, MigNode.build_report], s6) :=
    runLoop_build _ _ 3 (by simp) e5 r1
  have r3 : migRun o 5 MigNode.generate_with_template s3 =
      some ([MigNode.generate_with_template, MigNode.cleanup_platform, MigNode.build_report], s6) :=
    runLoop_build _ _ 4 (by simp) e4 r2
  have r4 : migRun o 6 MigNode.generate_with_llm s2 =
      some ([MigNode.generate_with_llm, MigNode.generate_with_template,
             MigNode.cleanup_platform, MigNode.build_report], s6) :=
    runLoop_build _ _ 5 (by simp) e3 r3
  have r5 : migRun o 7 MigNode.parse_with_regex s1 =
      some ([MigNode.parse_with_regex, MigNode.generate_with_llm, MigNode.generate_with_template,
             MigNode.cleanup_platform, MigNode.build_report], s6) :=
    runLoop_build _ _ 6 (by simp) e2 r4
  have r6 : migRun o 8 MigNode.parse_with_llm s0 =
      some ([MigNode.parse_with_llm, MigNode.parse_with_regex, MigNode.generate_with_llm,
             MigNode.generate_with_template, MigNode.cleanup_platform, MigNode.build_report], s6) :=
    runLoop_build _ _ 7 (by simp) e1 r5
  refine ⟨s6, r6, ?_, ?_, ?_⟩ <;>
    simp [hs1, hs2, hs3, hs4, hs5, hs6, merge, parseLLMFailDelta, parseRegexDelta,
      genLLMFailDelta, genTemplateDelta, cleanupDelta, buildReportDelta]

/-- Witness for C2 at a concrete oracle and input. -/
theorem migration_full_fallback_chain_witness :
    ∃ fin, migRun (MigOracle.mk none [] none "y" (fun _ _ => "c") "t") 8
        MigNode.parse_with_llm (migInit "jf" "demo" true) =
      some ([MigNode.parse_with_llm, MigNode.parse_with_regex,
             MigNode.generate_with_llm, MigNode.generate_with_template,
             MigNode.cleanup_platform, MigNode.build_report], fin) ∧
      fin Field.parse_method = some (Value.vstr "regex") ∧
      fin Field.generation_method = some (Value.vstr "template") ∧
      fin Field.success = some (Value.vbool true) :=
  migration_full_fallback_chain (MigOracle.mk none [] none "y" (fun _ _ => "c") "t")
    "jf" "demo" true rfl rfl 0 0 0 rfl rfl rfl

/-- Counterexample to C3 as stated: a state with non-empty pipeline_data
and parse_method "llm" (a non-failure result) in which route_after_parse
routes to parse_with_regex, not to generate_with_llm, because the parsed
pipeline type is "unknown". -/
theorem route_after_parse_unknown_type_counterexample :
    unknownTypeState Field.parse_method = some (Value.vstr "llm") ∧
    unknownTypeState Field.pipeline_data =
      some (Value.vdict [("type", Value.vstr "unknown")]) ∧
    ([("type", Value.vstr "unknown")] : List (String × Value)) ≠ [] ∧
    route_after_parse unknownTypeState = some "parse_with_regex" ∧
    route_after_parse unknownTypeState ≠ some "generate_with_llm" := by
  refine ⟨rfl, rfl, by simp, rfl, by simp [route_after_parse, unknownTypeState, isStr,
    truthyO, truthy, dictGet]⟩

/-- C3 (amended): if the primary parse node returns a non-empty
pipeline_data with parse_method "llm" whose type field is not the string
"unknown", route_after_parse routes straight to generate_with_llm,
parse_with_regex is never executed, and the final state and the final
report record parse_method "llm". -/
theorem migration_primary_success (o : MigOracle) (j p : String) (u : Bool)
    (pd : List (String × Value)) (nS nE nT : Nat)
    (hpd : o.parseLLM = some pd) (hne : pd ≠ [])
    (hty : dictGet pd "type" ≠ some (Value.vstr "unknown"))
    (hS : pyLen (dictGetD pd "stages" (Value.vlist [])) = some nS)
    (hE : pyLen (dictGetD pd "environment" (Value.vdict [])) = some nE)
    (hT : pyLen (dictGetD pd "triggers" (Value.vlist [])) = some nT) :
    ∃ tr fin, migRun o 8 MigNode.parse_with_llm (migInit j p u) =
        some (MigNode.parse_with_llm :: MigNode.generate_with_llm :: tr, fin) ∧
      MigNode.parse_with_regex ∉
        (MigNode.parse_with_llm :: MigNode.generate_with_llm :: tr) ∧
      fin Field.parse_method = some (Value.vstr "llm") ∧
      ∃ rep, fin Field.migration_report = some (Value.vdict rep) ∧
        dictGet rep "parse_method" = some (Value.vstr "llm") := by
  have hne2 : pd.isEmpty = false := by
    cases pd with
    | nil => exact absurd rfl hne
    | cons h t => rfl
  have hty2 : isStr (dictGet pd "type") "unknown" = false := by
    rw [← Bool.not_eq_true, isStr_iff]
    exact hty
  set s0 : StepState := migInit j p u with hs0
  set s1 : StepState := merge s0 (parseLLMSuccessDelta pd) with hs1
  have e1 : migStep o MigNode.parse_with_llm s0 = some (MigNode.generate_with_llm, s1) := by
    simp [hs0, hs1, migStep, parse_with_llm, migInit, hpd, route_after_parse, merge,
      parseLLMSuccessDelta, isStr_eval, truthyO, truthy, hne2, hty2]
  have hpd1 : s1 Field.pipeline_data = some (Value.vdict pd) := by
    simp [hs1, merge, parseLLMSuccessDelta]
  have hpn1 : ∃ v, s1 Field.project_name = some v := by
    refine ⟨Value.vstr p, ?_⟩
    simp [hs0, hs1, merge, parseLLMSuccessDelta, migInit]
  have hpm1 : s1 Field.parse_method = some (Value.vstr "llm") := by
    simp [hs1, merge, parseLLMSuccessDelta]
  obtain ⟨tr, fin, hrun6, htr, hpm, hgm, hsucc, rep, hrep, hreppm⟩ :=
    migRun_from_generate o 2 s1 pd nS nE nT hpd1 hpn1 hS hE hT
  have hrun : migRun o 8 MigNode.parse_with_llm s0 = some (MigNode.parse_with_llm :: tr, fin) :=
    runLoop_build _ _ 7 (by simp) e1 hrun6
  have hfinpm : fin Field.parse_method = some (Value.vstr "llm") := hpm.trans hpm1
  have hreppm2 : dictGet rep "parse_method" = some (Value.vstr "llm") := by
    rw [hreppm, sGetD, hpm1]
    rfl
  rcases htr with h | h <;> subst h
  · exact ⟨[MigNode.cleanup_platform, MigNode.build_report], fin, hrun,
      by simp, hfinpm, rep, hrep, hreppm2⟩
  · exact ⟨[MigNode.generate_with_template, MigNode.cleanup_platform, MigNode.build_report],
      fin, hrun, by simp, hfinpm, rep, hrep, hreppm2⟩

/-- Witness for the amended C3 at a concrete oracle and input. -/
theorem migration_primary_success_witness :
    ∃ tr fin, migRun (MigOracle.mk (some [("type", Value.vstr "declarative")]) [] (some "yaml")
        "t" (fun _ _ => "c") "ts") 8
        MigNode.parse_with_llm (migInit "jf" "demo" true) =
        some (MigNode.parse_with_llm :: MigNode.generate_with_llm :: tr, fin) ∧
      MigNode.parse_with_regex ∉
        (MigNode.parse_with_llm :: MigNode.generate_with_llm :: tr) ∧
      fin Field.parse_method = some (Value.vstr "llm") ∧
      ∃ rep, fin Field.migration_report = some (Value.vdict rep) ∧
        dictGet rep "parse_method" = some (Value.vstr "llm") :=
  migration_primary_success
    (MigOracle.mk (some [("type", Value.vstr "declarative")]) [] (some "yaml")
      "t" (fun _ _ => "c") "ts")
    "jf" "demo" true [("type", Value.vstr "declarative")] 0 0 0 rfl (by simp)
    (by simp [dictGet]) rfl rfl rfl

/-- C9: invariant of every completed Migration run, for every oracle,
every input and every fuel: in the final state parse_method is "llm" or
"regex" (never the "llm_failed" sentinel) and generation_method is "llm"
or "template" (never "llm_failed"). -/
theorem migration_no_sentinel_survives (o : MigOracle) (j p : String) (u : Bool)
    (fuel : Nat) (tr : List MigNode) (fin : StepState)
    (h : migRun o fuel MigNode.parse_with_llm (migInit j p u) = some (tr, fin)) :
    (fin Field.parse_method = some (Value.vstr "llm") ∨
     fin Field.parse_method = some (Value.vstr "regex")) ∧
    (fin Field.generation_method = some (Value.vstr "llm") ∨
     fin Field.generation_method = some (Value.vstr "template")) := by
  have hfin := runLoop_inv MigNode.terminal (migStep o) migInv (migStep_inv o)
    fuel MigNode.parse_with_llm (migInit j p u) tr fin trivial h
  exact hfin

/-- Witness for C9: a completed concrete run (primary parse succeeds,
generation succeeds) on which the invariant is discharged. -/
theorem migration_no_sentinel_survives_witness :
    ∃ tr fin,
      migRun (MigOracle.mk (some [("type", Value.vstr "declarative")]) [] (some "yaml")
          "t" (fun _ _ => "c") "ts") 8
        MigNode.parse_with_llm (migInit "jf" "demo" true) = some (tr, fin) ∧
      ((fin Field.parse_method = some (Value.vstr "llm") ∨
        fin Field.parse_method = some (Value.vstr "regex")) ∧
       (fin Field.generation_method = some (Value.vstr "llm") ∨
        fin Field.generation_method = some (Value.vstr "template"))) := by
  have e1 : migStep (MigOracle.mk (some [("type", Value.vstr "declarative")]) [] (some "yaml")
        "t" (fun _ _ => "c") "ts") MigNode.parse_with_llm (migInit "jf" "demo" true) =
      some (MigNode.generate_with_llm,
        merge (migInit "jf" "demo" true)
          (parseLLMSuccessDelta [("type", Value.vstr "declarative")])) := by
    simp [migStep, parse_with_llm, migInit, route_after_parse, merge,
      parseLLMSuccessDelta, isStr_eval, truthyO, truthy, dictGet]
  obtain ⟨tr, fin, hrun6, -, -, -, -, -⟩ :=
    migRun_from_generate (MigOracle.mk (some [("type", Value.vstr "declarative")]) []
        (some "yaml") "t" (fun _ _ => "c") "ts") 2
      (merge (migInit "jf" "demo" true)
        (parseLLMSuccessDelta [("type", Value.vstr "declarative")]))
      [("type", Value.vstr "declarative")] 0 0 0
      (by simp [merge, parseLLMSuccessDelta])
      ⟨Value.vstr "demo", by simp [merge, parseLLMSuccessDelta, migInit]⟩
      rfl rfl rfl
  have hrun : migRun (MigOracle.mk (some [("type", Value.vstr "declarative")]) [] (some "yaml")
        "t" (fun _ _ => "c") "ts") 8
      MigNode.parse_with_llm (migInit "jf" "demo" true) =
      some (MigNode.parse_with_llm :: tr, fin) :=
    runLoop_build _ _ 7 (by simp) e1 hrun6
  exact ⟨MigNode.parse_with_llm :: tr, fin, hrun,
    migration_no_sentinel_survives _ "jf" "demo" true 8 _ fin hrun⟩

/-- C4: in the Chatbot graph, when the analyze_intent delta sets
action_needed to false (the analysis dict has no truthy action_needed),
the run goes directly from analyze_intent to compose_response and
execute_action is never invoked at any step. -/
theorem chatbot_skips_execute_action (o : ChatOracle) (sid m : String) (hist : Value)
    (h : truthy (dictGetD o.analysis "action_needed" (Value.vbool false)) = false) :
    ∃ fin, chatRun o 4 ChatNode.analyze_intent (chatInit sid m hist) =
      some ([ChatNode.analyze_intent, ChatNode.compose_response], fin) ∧
      ChatNode.execute_action ∉ [ChatNode.analyze_intent, ChatNode.compose_response] := by
  set s0 : StepState := chatInit sid m hist with hs0
  set s1 : StepState := merge s0 (analyzeIntentDelta o.analysis) with hs1
  set s2 : StepState := merge s1
    (finalResponseDelta (dictGetD o.analysis "response"
      (Value.vstr "I\x27m here to help with your DevOps tasks!"))) with hs2
  have e1 : chatStep o ChatNode.analyze_intent s0 = some (ChatNode.compose_response, s1) := by
    simp [hs0, hs1, chatStep, analyze_intent, chatInit, needs_action, merge,
      analyzeIntentDelta, truthyO, h]
  have e2 : chatStep o ChatNode.compose_response s1 = some (ChatNode.terminal, s2) := by
    simp [hs0, hs1, hs2, chatStep, compose_response, chatInit, merge,
      analyzeIntentDelta, finalResponseDelta, sGetD, truthy]
  have r0 : chatRun o 2 ChatNode.terminal s2 = some ([], s2) := runLoop_term _ _ 1 s2
  have r1 : chatRun o 3 ChatNode.compose_response s1 = some ([ChatNode.compose_response], s2) :=
    runLoop_build _ _ 2 (by simp) e2 r0
  have r2 : chatRun o 4 ChatNode.analyze_intent s0 =
      some ([ChatNode.analyze_intent, ChatNode.compose_response], s2) :=
    runLoop_build _ _ 3 (by simp) e1 r1
  exact ⟨s2, r2, by simp⟩

/-- Witness for C4 at a concrete oracle and input. -/
theorem chatbot_skips_execute_action_witness :
    ∃ fin, chatRun (ChatOracle.mk [] Value.vnone (fun _ _ _ => "r")) 4
        ChatNode.analyze_intent (chatInit "s1" "hello" (Value.vlist [])) =
      some ([ChatNode.analyze_intent, ChatNode.compose_response], fin) ∧
      ChatNode.execute_action ∉ [ChatNode.analyze_intent, ChatNode.compose_response] :=
  chatbot_skips_execute_action (ChatOracle.mk [] Value.vnone (fun _ _ _ => "r"))
    "s1" "hello" (Value.vlist []) rfl

/-- C1: in the Remediation graph, with an eligible playbook (so the
execution branch is entered) and an execution collaborator that never
reports outcome "success" (the node then increments retry_count by 1 on
each attempt, as coded), the run terminates: execute_playbook is invoked
exactly 3 times, not 4, after which route_after_execute routes to
store_and_notify and the run reaches the terminal marker. -/
theorem remediation_retry_ceiling (o : RemOracle) (pid pj ed : Value)
    (pb : List (String × Value)) (c : Value)
    (hpb : o.playbook = some pb) (hne : pb ≠ [])
    (hauto : truthy (dictGetD pb "auto_fix_enabled" Value.vnone) = true)
    (hrisk : dictGet o.analysis "risk_level" = some (Value.vstr "low"))
    (hcat : dictGet o.analysis "category" = some c)
    (hfail : ∀ n, dictGet (o.execResult n) "outcome" ≠ some (Value.vstr "success")) :
    ∃ fin, remRun o 9 RemNode.fetch_logs (remInit pid pj ed) =
      some ([RemNode.fetch_logs, RemNode.analyze_failure, RemNode.find_playbook,
             RemNode.execute_playbook, RemNode.execute_playbook, RemNode.execute_playbook,
             RemNode.store_and_notify], fin) ∧
      List.count RemNode.execute_playbook
        [RemNode.fetch_logs, RemNode.analyze_failure, RemNode.find_playbook,
         RemNode.execute_playbook, RemNode.execute_playbook, RemNode.execute_playbook,
         RemNode.store_and_notify] = 3 := by
  have hne2 : pb.isEmpty = false := by
    cases pb with
    | nil => exact absurd rfl hne
    | cons h t => rfl
  have hfail0 : isStr (dictGet (o.execResult 0) "outcome") "success" = false := by
    rw [← Bool.not_eq_true, isStr_iff]; exact hfail 0
  have hfail1 : isStr (dictGet (o.execResult 1) "outcome") "success" = false := by
    rw [← Bool.not_eq_true, isStr_iff]; exact hfail 1
  have hfail2 : isStr (dictGet (o.execResult 2) "outcome") "success" = false := by
    rw [← Bool.not_eq_true, isStr_iff]; exact hfail 2
  set s0 : StepState := remInit pid pj ed with hs0
  set s1 : StepState := merge s0 (fetchLogsDelta o.logs) with hs1
  set s2 : StepState := merge s1 (analysisDelta o.analysis) with hs2
  set s3 : StepState := merge s2 (playbookDelta (some pb)) with hs3
  set s4 : StepState := merge s3 (execDelta (o.execResult 0) 0) with hs4
  set s5 : StepState := merge s4 (execDelta (o.execResult 1) 1) with hs5
  set s6 : StepState := merge s5 (execDelta (o.execResult 2) 2) with hs6
  set s7 : StepState := merge s6
    (notifyDelta (dictGetD (o.execResult 2) "outcome"
      (Value.vstr "manual_intervention_required"))) with hs7
  have e1 : remStep o RemNode.fetch_logs s0 = some (RemNode.analyze_failure, s1) := by
    simp [hs0, hs1, remStep, fetch_logs, remInit]
  have e2 : remStep o RemNode.analyze_failure s1 = some (RemNode.find_playbook, s2) := by
    simp [hs0, hs1, hs2, remStep, analyze_failure, remInit, merge, fetchLogsDelta]
  have e3 : remStep o RemNode.find_playbook s2 = some (RemNode.execute_playbook, s3) := by
    simp [hs0, hs1, hs2, hs3, remStep, find_playbook, remInit, merge, fetchLogsDelta,
      analysisDelta, playbookDelta, hpb, hcat, route_after_playbook, sGetD, truthy_vdict,
      hne2, hauto, hrisk, isStr_eval]
  have e4 : remStep o RemNode.execute_playbook s3 = some (RemNode.execute_playbook, s4) := by
    simp [hs0, hs1, hs2, hs3, hs4, remStep, execute_playbook, remInit, merge, fetchLogsDelta,
      analysisDelta, playbookDelta, execDelta, sGetD, pyToInt, route_after_execute,
      hfail0, isStr_eval]
  have e5 : remStep o RemNode.execute_playbook s4 = some (RemNode.execute_playbook, s5) := by
    simp [hs0, hs1, hs2, hs3, hs4, hs5, remStep, execute_playbook, remInit, merge,
      fetchLogsDelta, analysisDelta, playbookDelta, execDelta, sGetD, pyToInt,
      route_after_execute, hfail1, isStr_eval]
  have e6 : remStep o RemNode.execute_playbook s5 = some (RemNode.store_and_notify, s6) := by
    simp [hs0, hs1, hs2, hs3, hs4, hs5, hs6, remStep, execute_playbook, remInit, merge,
      fetchLogsDelta, analysisDelta, playbookDelta, execDelta, sGetD, pyToInt,
      route_after_execute, hfail2, isStr_eval]
  have e7 : remStep o RemNode.store_and_notify s6 = some (RemNode.terminal, s7) := by
    simp [hs0, hs1, hs2, hs3, hs4, hs5, hs6, hs7, remStep, store_and_notify, remInit, merge,
      fetchLogsDelta, analysisDelta, playbookDelta, execDelta, notifyDelta, sGetD]
  have r0 : remRun o 2 RemNode.terminal s7 = some ([], s7) := runLoop_term _ _ 1 s7
  have r1 : remRun o 3 RemNode.store_and_notify s6 = some ([RemNode.store_and_notify], s7) :=
    runLoop_build _ _ 2 (by simp) e7 r0
  have r2 : remRun o 4 RemNode.execute_playbook s5 =
      some ([RemNode.execute_playbook, RemNode.store_and_notify], s7) :=
    runLoop_build _ _ 3 (by simp) e6 r1
  have r3 : remRun o 5 RemNode.execute_playbook s4 =
      some ([RemNode.execute_playbook, RemNode.execute_playbook, RemNode.store_and_notify], s7) :=
    runLoop_build _ _ 4 (by simp) e5 r2
  have r4 : remRun o 6 RemNode.execute_playbook s3 =
      some ([RemNode.execute_playbook, RemNode.execute_playbook, RemNode.execute_playbook,
             RemNode.store_and_notify], s7) :=
    runLoop_build _ _ 5 (by simp) e4 r3
  have r5 : remRun o 7 RemNode.find_playbook s2 =
      some ([RemNode.find_playbook, RemNode.execute_playbook, RemNode.execute_playbook,
             RemNode.execute_playbook, RemNode.store_and_notify], s7) :=
    runLoop_build _ _ 6 (by simp) e3 r4
  have r6 : remRun o 8 RemNode.analyze_failure s1 =
      some ([RemNode.analyze_failure, RemNode.find_playbook, RemNode.execute_playbook,
             RemNode.execute_playbook, RemNode.execute_playbook, RemNode.store_and_notify], s7) :=
    runLoop_build _ _ 7 (by simp) e2 r5
  have r7 : remRun o 9 RemNode.fetch_logs s0 =
      some ([RemNode.fetch_logs, RemNode.analyze_failure, RemNode.find_playbook,
             RemNode.execute_playbook, RemNode.execute_playbook, RemNode.execute_playbook,
             RemNode.store_and_notify], s7) :=
    runLoop_build _ _ 8 (by simp) e1 r6
  exact ⟨s7, r7, by decide⟩

/-- Witness for C1 at a concrete oracle and input. -/
theorem remediation_retry_ceiling_witness :
    ∃ fin, remRun (RemOracle.mk "log"
        [("category", Value.vstr "build"), ("risk_level", Value.vstr "low")]
        (some [("auto_fix_enabled", Value.vbool true)])
        (fun _ => [("outcome", Value.vstr "failure")])) 9
        RemNode.fetch_logs (remInit (Value.vint 7) (Value.vstr "proj") (Value.vdict [])) =
      some ([RemNode.fetch_logs, RemNode.analyze_failure, RemNode.find_playbook,
             RemNode.execute_playbook, RemNode.execute_playbook, RemNode.execute_playbook,
             RemNode.store_and_notify], fin) ∧
      List.count RemNode.execute_playbook
        [RemNode.fetch_logs, RemNode.analyze_failure, RemNode.find_playbook,
         RemNode.execute_playbook, RemNode.execute_playbook, RemNode.execute_playbook,
         RemNode.store_and_notify] = 3 :=
  remediation_retry_ceiling
    (RemOracle.mk "log" [("category", Value.vstr "build"), ("risk_level", Value.vstr "low")]
      (some [("auto_fix_enabled", Value.vbool true)])
      (fun _ => [("outcome", Value.vstr "failure")]))
    (Value.vint 7) (Value.vstr "proj") (Value.vdict [])
    [("auto_fix_enabled", Value.vbool true)] (Value.vstr "build")
    rfl (by simp) rfl (by simp [dictGet]) (by simp [dictGet])
    (fun n => by simp [dictGet])

/-- C10: in the Remediation graph, every run routed directly from
find_playbook to store_and_notify (execute_playbook never invoked, so
execution_result is absent) ends with outcome
"manual_intervention_required" and notification_sent = True. The
hypothesis hroute states that the conditional edge after find_playbook
chose store_and_notify in the state merged after that node. -/
theorem remediation_manual_intervention (o : RemOracle) (pid pj ed : Value) (c : Value)
    (hcat : dictGet o.analysis "category" = some c)
    (hroute : route_after_playbook
        (merge (merge (merge (remInit pid pj ed) (fetchLogsDelta o.logs))
          (analysisDelta o.analysis)) (playbookDelta o.playbook)) =
        some "store_and_notify") :
    ∃ fin, remRun o 6 RemNode.fetch_logs (remInit pid pj ed) =
      some ([RemNode.fetch_logs, RemNode.analyze_failure, RemNode.find_playbook,
             RemNode.store_and_notify], fin) ∧
      RemNode.execute_playbook ∉
        [RemNode.fetch_logs, RemNode.analyze_failure, RemNode.find_playbook,
         RemNode.store_and_notify] ∧
      fin Field.outcome = some (Value.vstr "manual_intervention_required") ∧
      fin Field.notification_sent = some (Value.vbool true) := by
  set s0 : StepState := remInit pid pj ed with hs0
  set s1 : StepState := merge s0 (fetchLogsDelta o.logs) with hs1
  set s2 : StepState := merge s1 (analysisDelta o.analysis) with hs2
  set s3 : StepState := merge s2 (playbookDelta o.playbook) with hs3
  set s4 : StepState := merge s3
    (notifyDelta (Value.vstr "manual_intervention_required")) with hs4
  have e1 : remStep o RemNode.fetch_logs s0 = some (RemNode.analyze_failure, s1) := by
    simp [hs0, hs1, remStep, fetch_logs, remInit]
  have e2 : remStep o RemNode.analyze_failure s1 = some (RemNode.find_playbook, s2) := by
    simp [hs0, hs1, hs2, remStep, analyze_failure, remInit, merge, fetchLogsDelta]
  have e3 : remStep o RemNode.find_playbook s2 = some (RemNode.store_and_notify, s3) := by
    have h2 : s2 Field.analysis = some (Value.vdict o.analysis) := by
      simp [hs0, hs1, hs2, remInit, merge, fetchLogsDelta, analysisDelta]
    simp only [remStep, find_playbook, h2, hcat, Option.some_bind]
    rw [← hs3, hroute]
    simp
  have e4 : remStep o RemNode.store_and_notify s3 = some (RemNode.terminal, s4) := by
    simp [hs0, hs1, hs2, hs3, hs4, remStep, store_and_notify, remInit, merge,
      fetchLogsDelta, analysisDelta, playbookDelta, notifyDelta, sGetD, dictGetD, dictGet]
  have r0 : remRun o 2 RemNode.terminal s4 = some ([], s4) := runLoop_term _ _ 1 s4
  have r1 : remRun o 3 RemNode.store_and_notify s3 = some ([RemNode.store_and_notify], s4) :=
    runLoop_build _ _ 2 (by simp) e4 r0
  have r2 : remRun o 4 RemNode.find_playbook s2 =
      some ([RemNode.find_playbook, RemNode.store_and_notify], s4) :=
    runLoop_build _ _ 3 (by simp) e3 r1
  have r3 : remRun o 5 RemNode.analyze_failure s1 =
      some ([RemNode.analyze_failure, RemNode.find_playbook, RemNode.store_and_notify], s4) :=
    runLoop_build _ _ 4 (by simp) e2 r2
  have r4 : remRun o 6 RemNode.fetch_logs s0 =
      some ([RemNode.fetch_logs, RemNode.analyze_failure, RemNode.find_playbook,
             RemNode.store_and_notify], s4) :=
    runLoop_build _ _ 5 (by simp) e1 r3
  refine ⟨s4, r4, by decide, ?_, ?_⟩ <;>
    simp [hs4, merge, notifyDelta]

/-- Witness for C10 at a concrete oracle (no playbook found) and input. -/
theorem remediation_manual_intervention_witness :
    ∃ fin, remRun (RemOracle.mk "log" [("category", Value.vstr "build")] none
        (fun _ => [])) 6
        RemNode.fetch_logs (remInit (Value.vint 7) (Value.vstr "proj") (Value.vdict [])) =
      some ([RemNode.fetch_logs, RemNode.analyze_failure, RemNode.find_playbook,
             RemNode.store_and_notify], fin) ∧
      RemNode.execute_playbook ∉
        [RemNode.fetch_logs, RemNode.analyze_failure, RemNode.find_playbook,
         RemNode.store_and_notify] ∧
      fin Field.outcome = some (Value.vstr "manual_intervention_required") ∧
      fin Field.notification_sent = some (Value.vbool true) :=
  remediation_manual_intervention
    (RemOracle.mk "log" [("category", Value.vstr "build")] none (fun _ => []))
    (Value.vint 7) (Value.vstr "proj") (Value.vdict []) (Value.vstr "build")
    (by simp [dictGet])
    (by simp [route_after_playbook, remInit, merge, fetchLogsDelta, analysisDelta,
      playbookDelta, sGetD, truthy])

/-- C7: modelled from the spec (section 4.1; the merge is performed by
the external LangGraph library): merge(s, d) equals s with every key of
d overwritten (or added) with the value from d, all other keys carried
over unchanged, and merging the same delta twice is idempotent. -/
theorem merge_overwrites_and_idempotent :
    (∀ (s d : StepState) (k : Field) (v : Value), d k = some v → merge s d k = some v) ∧
    (∀ (s d : StepState) (k : Field), d k = none → merge s d k = s k) ∧
    (∀ s d : StepState, merge (merge s d) d = merge s d) := by
  refine ⟨?_, ?_, ?_⟩
  · intro s d k v h
    simp [merge, h]
  · intro s d k h
    simp [merge, h]
  · intro s d
    funext k
    simp only [merge]
    cases d k <;> simp

/-- Witness for C7 at a concrete state and delta. -/
theorem merge_overwrites_and_idempotent_witness :
    merge emptyDelta parseLLMFailDelta Field.parse_method = some (Value.vstr "llm_failed") ∧
    merge emptyDelta parseLLMFailDelta Field.status = emptyDelta Field.status ∧
    merge (merge emptyDelta parseLLMFailDelta) parseLLMFailDelta =
      merge emptyDelta parseLLMFailDelta :=
  ⟨merge_overwrites_and_idempotent.1 emptyDelta parseLLMFailDelta Field.parse_method
      (Value.vstr "llm_failed") rfl,
   merge_overwrites_and_idempotent.2.1 emptyDelta parseLLMFailDelta Field.status rfl,
   merge_overwrites_and_idempotent.2.2 emptyDelta parseLLMFailDelta⟩

/-- C8: the Policy agent's single workflow graph is the linear chain
load_policies → scan_content → evaluate_violations → suggest_fixes →
build_report → terminal, with entry node load_policies, no branching
(the successor function is total and single-valued by construction), and
the chain reaches the terminal marker in five edges. -/
theorem policy_graph_shape :
    policyGraph.entry = PolicyNode.load_policies ∧
    policyGraph.next PolicyNode.load_policies = PolicyNode.scan_content ∧
    policyGraph.next PolicyNode.scan_content = PolicyNode.evaluate_violations ∧
    policyGraph.next PolicyNode.evaluate_violations = PolicyNode.suggest_fixes ∧
    policyGraph.next PolicyNode.suggest_fixes = PolicyNode.build_report ∧
    policyGraph.next PolicyNode.build_report = PolicyNode.terminal ∧
    policyGraph.next^[5] policyGraph.entry = PolicyNode.terminal := by
  refine ⟨rfl, rfl, rfl, rfl, rfl, rfl, rfl⟩

/-- C5: route_after_playbook routes to execute_playbook if and only if
the state holds a non-empty playbook dict whose auto_fix_enabled is
truthy and the analysis risk_level equals "low"; in every other
(well-typed) state it routes to store_and_notify. -/
theorem route_after_playbook_gating (s : StepState)
    (hpb : playbookFieldTyped (s Field.playbook))
    (han : dictFieldTyped (s Field.analysis)) :
    (route_after_playbook s = some "execute_playbook" ↔
      (∃ d, s Field.playbook = some (Value.vdict d) ∧ d ≠ [] ∧
        truthy (dictGetD d "auto_fix_enabled" Value.vnone) = true ∧
        (∃ a, sGetD s Field.analysis (Value.vdict []) = Value.vdict a ∧
          dictGet a "risk_level" = some (Value.vstr "low")))) ∧
    (route_after_playbook s ≠ some "execute_playbook" →
      route_after_playbook s = some "store_and_notify") := by
  rcases hpb with h | h | ⟨d, h⟩
  · constructor
    · simp [route_after_playbook, sGetD, h, truthy_vnone]
    · intro
      simp [route_after_playbook, sGetD, h, truthy_vnone]
  · constructor
    · simp [route_after_playbook, sGetD, h, truthy_vnone]
    · intro
      simp [route_after_playbook, sGetD, h, truthy_vnone]
  · by_cases hd : d.isEmpty
    · have hdnil : d = [] := List.isEmpty_iff.mp hd
      subst hdnil
      constructor
      · simp [route_after_playbook, sGetD, h, truthy_vdict]
      · intro
        simp [route_after_playbook, sGetD, h, truthy_vdict]
    · by_cases hauto : truthy (dictGetD d "auto_fix_enabled" Value.vnone) = true
      · rcases han with h2 | ⟨a, h2⟩
        · constructor
          · simp [route_after_playbook, sGetD, h, h2, truthy_vdict, hd, hauto, isStr, dictGet]
          · intro
            simp [route_after_playbook, sGetD, h, h2, truthy_vdict, hd, hauto, isStr, dictGet]
        · by_cases hr : isStr (dictGet a "risk_level") "low" = true
          · have hr2 := isStr_iff _ _ |>.mp hr
            have hdne : d ≠ [] := by simpa [List.isEmpty_iff] using hd
            constructor
            · simp [route_after_playbook, sGetD, h, h2, truthy_vdict, hd, hauto, hr,
                hdne, isStr_eval, hr2]
            · intro hne
              exact absurd (by simp [route_after_playbook, sGetD, h, h2, truthy_vdict,
                hd, hauto, hr]) hne
          · have hr2 : isStr (dictGet a "risk_level") "low" = false :=
              Bool.not_eq_true _ |>.mp hr
            constructor
            · simp [route_after_playbook, sGetD, h, h2, truthy_vdict, hd, hauto, hr2,
                ← isStr_iff]
            · intro
              simp [route_after_playbook, sGetD, h, h2, truthy_vdict, hd, hauto, hr2]
      · have hauto2 : truthy (dictGetD d "auto_fix_enabled" Value.vnone) = false :=
          Bool.not_eq_true _ |>.mp hauto
        constructor
        · simp [route_after_playbook, sGetD, h, truthy_vdict, hd, hauto2]
        · intro
          simp [route_after_playbook, sGetD, h, truthy_vdict, hd, hauto2]

/-- Witness for C5 at a concrete eligible state. -/
theorem route_after_playbook_gating_witness :
    route_after_playbook gateWitnessState = some "execute_playbook" :=
  (route_after_playbook_gating gateWitnessState
      (Or.inr (Or.inr ⟨_, rfl⟩)) (Or.inr ⟨_, rfl⟩)).1.mpr
    ⟨[("auto_fix_enabled", Value.vbool true)], rfl, by simp, rfl,
      ⟨[("risk_level", Value.vstr "low")], rfl, rfl⟩⟩

theorem dictFieldTyped_merge (s d : StepState) (k : Field)
    (hd : d k = none ∨ ∃ l, d k = some (Value.vdict l))
    (h : dictFieldTyped (s k)) : dictFieldTyped (merge s d k) := by
  rcases hd with hd | ⟨l, hd⟩
  · simpa [merge, hd] using h
  · exact Or.inr ⟨l, by simp [merge, hd]⟩

theorem migStep_preserves_pipeline_typed (o : MigOracle) (n : MigNode) (s : StepState)
    (p : MigNode × StepState) (h : migStep o n s = some p)
    (hs : dictFieldTyped (s Field.pipeline_data)) :
    dictFieldTyped (p.2 Field.pipeline_data) := by
  cases n with
  | parse_with_llm =>
      have hdel : ∃ l, (parse_with_llm o s) Field.pipeline_data = some (Value.vdict l) := by
        unfold parse_with_llm
        rcases hjc : s Field.jenkinsfile_content with _ | jv <;>
          rcases hop : o.parseLLM with _ | pd <;>
          exact ⟨_, rfl⟩
      rcases hr : route_after_parse (merge s (parse_with_llm o s)) with _ | r
      · simp [migStep, hr] at h
      · simp only [migStep, hr, Option.some_bind] at h
        split at h
        · injection h with h
          subst h
          exact dictFieldTyped_merge s _ _ (Or.inr hdel) hs
        · split at h
          · injection h with h
            subst h
            exact dictFieldTyped_merge s _ _ (Or.inr hdel) hs
          · exact absurd h (by simp)
  | parse_with_regex =>
      rcases hm : s Field.jenkinsfile_content with _ | jv
      · simp [migStep, parse_with_regex, hm] at h
      · simp [migStep, parse_with_regex, hm] at h
        rcases h with ⟨_, rfl⟩
        exact dictFieldTyped_merge s (parseRegexDelta o.regexPD) Field.pipeline_data
          (Or.inr ⟨o.regexPD, rfl⟩) hs
  | generate_with_llm =>
      have hdel : (generate_with_llm o s) Field.pipeline_data = none := by
        unfold generate_with_llm
        rcases h1 : s Field.pipeline_data with _ | v1 <;>
          rcases h2 : s Field.project_name with _ | v2 <;>
          rcases h3 : o.genLLM with _ | y <;>
          rfl
      rcases route_after_generate_total (merge s (generate_with_llm o s)) with hr | hr <;>
        simp [migStep, hr] at h <;> rcases h with ⟨_, rfl⟩ <;>
        exact dictFieldTyped_merge s _ _ (Or.inl hdel) hs
  | generate_with_template =>
      rcases hm1 : s Field.pipeline_data with _ | v1 <;>
        rcases hm2 : s Field.project_name with _ | v2 <;>
        simp [migStep, generate_with_template, hm1, hm2] at h
      rcases h with ⟨_, rfl⟩
      exact dictFieldTyped_merge s (genTemplateDelta o.tmplYaml) Field.pipeline_data
        (Or.inl rfl) hs
  | cleanup_platform =>
      rcases hm : s Field.workflow_yaml with _ | y
      · simp [migStep, cleanup_platform, hm] at h
      · simp [migStep, cleanup_platform, hm] at h
        rcases h with ⟨_, rfl⟩
        exact dictFieldTyped_merge s (cleanupDelta (o.cleanF y (sGetD s Field.runner (Value.vstr "ubuntu-latest")))) Field.pipeline_data (Or.inl rfl) hs
  | build_report =>
      rcases hb : build_report o s with _ | d
      · simp [migStep, hb] at h
      · simp [migStep, hb] at h
        rcases h with ⟨_, rfl⟩
        obtain ⟨r, w, rfl⟩ := build_report_delta_shape o s d hb
        exact dictFieldTyped_merge s (buildReportDelta r w) Field.pipeline_data
          (Or.inl rfl) hs
  | terminal => simp [migStep] at h

theorem playbookFieldTyped_merge (s d : StepState)
    (hd : d Field.playbook = none ∨ d Field.playbook = some Value.vnone ∨
      ∃ l, d Field.playbook = some (Value.vdict l))
    (h : playbookFieldTyped (s Field.playbook)) :
    playbookFieldTyped (merge s d Field.playbook) := by
  rcases hd with hd | hd | ⟨l, hd⟩
  · simpa [merge, hd] using h
  · exact Or.inr (Or.inl (by simp [merge, hd]))
  · exact Or.inr (Or.inr ⟨l, by simp [merge, hd]⟩)

theorem counterFieldTyped_merge (s d : StepState)
    (hd : d Field.retry_count = none ∨ ∃ n, d Field.retry_count = some (Value.vint n))
    (h : counterFieldTyped (s Field.retry_count)) :
    counterFieldTyped (merge s d Field.retry_count) := by
  rcases hd with hd | ⟨n, hd⟩
  · simpa [merge, hd] using h
  · exact Or.inr (Or.inl ⟨n, by simp [merge, hd]⟩)

theorem remTyped_merge (s d : StepState)
    (h1 : d Field.playbook = none ∨ d Field.playbook = some Value.vnone ∨
      ∃ l, d Field.playbook = some (Value.vdict l))
    (h2 : d Field.analysis = none ∨ ∃ l, d Field.analysis = some (Value.vdict l))
    (h3 : d Field.execution_result = none ∨ ∃ l, d Field.execution_result = some (Value.vdict l))
    (h4 : d Field.retry_count = none ∨ ∃ n, d Field.retry_count = some (Value.vint n))
    (hs : remTyped s) : remTyped (merge s d) :=
  ⟨playbookFieldTyped_merge s d h1 hs.1,
   dictFieldTyped_merge s d Field.analysis h2 hs.2.1,
   dictFieldTyped_merge s d Field.execution_result h3 hs.2.2.1,
   counterFieldTyped_merge s d h4 hs.2.2.2⟩

theorem remStep_preserves_typed (o : RemOracle) (n : RemNode) (s : StepState)
    (p : RemNode × StepState) (h : remStep o n s = some p)
    (hs : remTyped s) : remTyped p.2 := by
  cases n with
  | fetch_logs =>
      rcases h1 : s Field.pipeline_id with _ | v1 <;>
        rcases h2 : s Field.project_id with _ | v2 <;>
        simp [remStep, fetch_logs, h1, h2] at h
      rcases h with ⟨_, rfl⟩
      exact remTyped_merge s (fetchLogsDelta o.logs)
        (Or.inl rfl) (Or.inl rfl) (Or.inl rfl) (Or.inl rfl) hs
  | analyze_failure =>
      rcases h1 : s Field.logs with _ | v1 <;>
        simp [remStep, analyze_failure, h1] at h
      rcases h with ⟨_, rfl⟩
      exact remTyped_merge s (analysisDelta o.analysis)
        (Or.inl rfl) (Or.inr ⟨o.analysis, rfl⟩) (Or.inl rfl) (Or.inl rfl) hs
  | find_playbook =>
      have hdel : (playbookDelta o.playbook) Field.playbook = some Value.vnone ∨
          ∃ l, (playbookDelta o.playbook) Field.playbook = some (Value.vdict l) := by
        unfold playbookDelta
        rcases o.playbook with _ | l
        · exact Or.inl rfl
        · exact Or.inr ⟨l, rfl⟩
      rcases h1 : s Field.analysis with _ | av
      · simp [remStep, find_playbook, h1] at h
      · cases av <;> simp only [remStep, find_playbook, h1, Option.none_bind] at h <;>
          try exact Option.noConfusion h
        rename_i a
        rcases hc : dictGet a "category" with _ | c <;>
          simp only [hc, Option.none_bind, Option.some_bind] at h
        · exact Option.noConfusion h
        · rcases hroute : route_after_playbook (merge s (playbookDelta o.playbook)) with _ | r <;>
            simp only [hroute, Option.none_bind, Option.some_bind] at h
          · exact Option.noConfusion h
          · split at h
            · injection h with h
              subst h
              exact remTyped_merge s (playbookDelta o.playbook)
                (Or.inr hdel) (Or.inl rfl) (Or.inl rfl) (Or.inl rfl) hs
            · split at h
              · injection h with h
                subst h
                exact remTyped_merge s (playbookDelta o.playbook)
                  (Or.inr hdel) (Or.inl rfl) (Or.inl rfl) (Or.inl rfl) hs
              · exact Option.noConfusion h
  | execute_playbook =>
      rcases h1 : s Field.playbook with _ | v1 <;>
        rcases h2 : s Field.analysis with _ | v2 <;>
        rcases h3 : s Field.pipeline_id with _ | v3 <;>
        rcases h4 : s Field.project_id with _ | v4 <;>
        simp only [remStep, execute_playbook, h1, h2, h3, h4, Option.none_bind] at h <;>
        try exact Option.noConfusion h
      rcases hn : pyToInt (sGetD s Field.retry_count (Value.vint 0)) with _ | m <;>
        simp only [hn, Option.none_bind, Option.some_bind] at h
      · exact Option.noConfusion h
      · rcases hroute : route_after_execute (merge s (execDelta (o.execResult m) m)) with _ | r <;>
          simp only [hroute, Option.none_bind, Option.some_bind] at h
        · exact Option.noConfusion h
        · split at h
          · injection h with h
            subst h
            exact remTyped_merge s (execDelta (o.execResult m) m)
              (Or.inl rfl) (Or.inl rfl) (Or.inr ⟨_, rfl⟩) (Or.inr ⟨_, rfl⟩) hs
          · split at h
            · injection h with h
              subst h
              exact remTyped_merge s (execDelta (o.execResult m) m)
                (Or.inl rfl) (Or.inl rfl) (Or.inr ⟨_, rfl⟩) (Or.inr ⟨_, rfl⟩) hs
            · exact Option.noConfusion h
  | store_and_notify =>
      rcases h1 : s Field.pipeline_id with _ | v1 <;>
        rcases h2 : s Field.project_id with _ | v2 <;>
        simp only [remStep, store_and_notify, h1, h2, Option.none_bind] at h <;>
        try exact Option.noConfusion h
      rcases hres : sGetD s Field.execution_result
          (Value.vdict [("outcome", Value.vstr "manual_intervention_required")]) with
        _ | b | m | st | l | dd <;>
        simp only [hres, Option.none_bind, Option.some_bind] at h <;>
        try exact Option.noConfusion h
      injection h with h
      subst h
      exact remTyped_merge s (notifyDelta _)
        (Or.inl rfl) (Or.inl rfl) (Or.inl rfl) (Or.inl rfl) hs
  | terminal => simp [remStep] at h

/-- C6: every routing function is total over the reachable StepState
space: it returns one of its declared candidate node names and never
raises. The well-typedness hypotheses (pipeline_data a dict, playbook
None or a dict, analysis and execution_result dicts, retry_count a
number, whenever present) characterise the reachable states: the last
two conjuncts prove they are preserved by every Migration and
Remediation step, and they hold of every initial state. -/
theorem routing_functions_total :
    (∀ s : StepState,
      needs_fallback s = "fallback_plan" ∨ needs_fallback s = "store_workflow") ∧
    (∀ s : StepState, dictFieldTyped (s Field.pipeline_data) →
      route_after_parse s = some "parse_with_regex" ∨
      route_after_parse s = some "generate_with_llm") ∧
    (∀ s : StepState,
      route_after_generate s = "generate_with_template" ∨
      route_after_generate s = "cleanup_platform") ∧
    (∀ s : StepState,
      needs_action s = "execute_action" ∨ needs_action s = "compose_response") ∧
    (∀ s : StepState, playbookFieldTyped (s Field.playbook) →
      dictFieldTyped (s Field.analysis) →
      route_after_playbook s = some "execute_playbook" ∨
      route_after_playbook s = some "store_and_notify") ∧
    (∀ s : StepState, dictFieldTyped (s Field.execution_result) →
      counterFieldTyped (s Field.retry_count) →
      route_after_execute s = some "execute_playbook" ∨
      route_after_execute s = some "store_and_notify") ∧
    (∀ (o : MigOracle) (n : MigNode) (s : StepState) (p : MigNode × StepState),
      migStep o n s = some p → dictFieldTyped (s Field.pipeline_data) →
      dictFieldTyped (p.2 Field.pipeline_data)) ∧
    (∀ (o : RemOracle) (n : RemNode) (s : StepState) (p : RemNode × StepState),
      remStep o n s = some p → remTyped s → remTyped p.2) := by
  refine ⟨?_, ?_, ?_, ?_, ?_, ?_, ?_, ?_⟩
  · intro s
    unfold needs_fallback
    split
    · exact Or.inl rfl
    · exact Or.inr rfl
  · intro s hpd
    by_cases hc : (isStr (s Field.parse_method) "llm_failed" || !truthyO (s Field.pipeline_data)) = true
    · left
      simp [route_after_parse, hc]
    · have hcf : (isStr (s Field.parse_method) "llm_failed" ||
          !truthyO (s Field.pipeline_data)) = false := Bool.not_eq_true _ |>.mp hc
      obtain ⟨hm, ht⟩ : isStr (s Field.parse_method) "llm_failed" = false ∧
          truthyO (s Field.pipeline_data) = true := by simpa using hcf
      rcases hpd with h | ⟨d, h⟩
      · exact absurd (by simp [h, truthyO]) hc
      · rw [h] at ht
        by_cases hu : isStr (dictGet d "type") "unknown" = true
        · left
          simp [route_after_parse, h, hm, ht, hu]
        · right
          simp [route_after_parse, h, hm, ht, hu]
  · intro s
    unfold route_after_generate
    split
    · exact Or.inl rfl
    · exact Or.inr rfl
  · intro s
    unfold needs_action
    split
    · exact Or.inl rfl
    · exact Or.inr rfl
  · intro s hpb han
    rcases hpb with h | h | ⟨d, h⟩
    · right
      simp [route_after_playbook, sGetD, h, truthy_vnone]
    · right
      simp [route_after_playbook, sGetD, h, truthy_vnone]
    · by_cases hd : d.isEmpty
      · right
        simp [route_after_playbook, sGetD, h, truthy_vdict, hd]
      · by_cases hauto : truthy (dictGetD d "auto_fix_enabled" Value.vnone) = true
        · rcases han with h2 | ⟨a, h2⟩
          · right
            simp [route_after_playbook, sGetD, h, h2, truthy_vdict, hd, hauto, isStr, dictGet]
          · by_cases hr : isStr (dictGet a "risk_level") "low" = true
            · left
              simp [route_after_playbook, sGetD, h, h2, truthy_vdict, hd, hauto, hr]
            · right
              simp [route_after_playbook, sGetD, h, h2, truthy_vdict, hd, hauto, hr]
        · right
          simp [route_after_playbook, sGetD, h, truthy_vdict, hd, hauto]
  · intro s her hrc
    have hres : ∃ e, sGetD s Field.execution_result (Value.vdict []) = Value.vdict e := by
      rcases her with h | ⟨e, h⟩
      · exact ⟨[], by simp [sGetD, h]⟩
      · exact ⟨e, by simp [sGetD, h]⟩
    obtain ⟨e, hres⟩ := hres
    by_cases hsu : isStr (dictGet e "outcome") "success" = true
    · right
      simp [route_after_execute, hres, hsu]
    · have hcnt : ∃ m, pyToInt (sGetD s Field.retry_count (Value.vint 0)) = some m := by
        rcases hrc with h | ⟨m, h⟩ | ⟨b, h⟩
        · exact ⟨0, by simp [sGetD, h, pyToInt]⟩
        · exact ⟨m, by simp [sGetD, h, pyToInt]⟩
        · exact ⟨if b then 1 else 0, by simp [sGetD, h, pyToInt]⟩
      obtain ⟨m, hcnt⟩ := hcnt
      by_cases hlt : m < 3
      · left
        simp [route_after_execute, hres, hsu, hcnt, hlt]
      · right
        simp [route_after_execute, hres, hsu, hcnt, hlt]
  · exact fun o n s p h hs => migStep_preserves_pipeline_typed o n s p h hs
  · exact fun o n s p h hs => remStep_preserves_typed o n s p h hs

/-- Witness for C6: the routing functions evaluated at the empty state,
and the two preservation conjuncts at concrete steps. -/
theorem routing_functions_total_witness :
    (needs_fallback emptyDelta = "fallback_plan" ∨
      needs_fallback emptyDelta = "store_workflow") ∧
    (route_after_parse emptyDelta = some "parse_with_regex" ∨
      route_after_parse emptyDelta = some "generate_with_llm") ∧
    (route_after_generate emptyDelta = "generate_with_template" ∨
      route_after_generate emptyDelta = "cleanup_platform") ∧
    (needs_action emptyDelta = "execute_action" ∨
      needs_action emptyDelta = "compose_response") ∧
    (route_after_playbook emptyDelta = some "execute_playbook" ∨
      route_after_playbook emptyDelta = some "store_and_notify") ∧
    (route_after_execute emptyDelta = some "execute_playbook" ∨
      route_after_execute emptyDelta = some "store_and_notify") ∧
    dictFieldTyped
      ((merge (migInit "jf" "demo" true)
        (parseLLMSuccessDelta [("type", Value.vstr "declarative")])) Field.pipeline_data) ∧
    remTyped (merge (remInit (Value.vint 7) (Value.vstr "proj") (Value.vdict []))
      (fetchLogsDelta "log")) :=
  ⟨routing_functions_total.1 emptyDelta,
   routing_functions_total.2.1 emptyDelta (Or.inl rfl),
   routing_functions_total.2.2.1 emptyDelta,
   routing_functions_total.2.2.2.1 emptyDelta,
   routing_functions_total.2.2.2.2.1 emptyDelta (Or.inl rfl) (Or.inl rfl),
   routing_functions_total.2.2.2.2.2.1 emptyDelta (Or.inl rfl) (Or.inl rfl),
   routing_functions_total.2.2.2.2.2.2.1
     (MigOracle.mk (some [("type", Value.vstr "declarative")]) [] (some "yaml")
       "t" (fun _ _ => "c") "ts")
     MigNode.parse_with_llm (migInit "jf" "demo" true)
     (MigNode.generate_with_llm,
       merge (migInit "jf" "demo" true)
         (parseLLMSuccessDelta [("type", Value.vstr "declarative")]))
     (by simp [migStep, parse_with_llm, migInit, route_after_parse, merge,
       parseLLMSuccessDelta, isStr_eval, truthyO, truthy, dictGet])
     (Or.inl rfl),
   routing_functions_total.2.2.2.2.2.2.2
     (RemOracle.mk "log" [("category", Value.vstr "build")] none (fun _ => []))
     RemNode.fetch_logs (remInit (Value.vint 7) (Value.vstr "proj") (Value.vdict []))
     (RemNode.analyze_failure,
       merge (remInit (Value.vint 7) (Value.vstr "proj") (Value.vdict []))
         (fetchLogsDelta "log"))
     (by simp [remStep, fetch_logs, remInit])
     ⟨Or.inl rfl, Or.inl rfl, Or.inl rfl, Or.inr (Or.inl ⟨0, rfl⟩)⟩⟩

end Agentic
